import Mathlib

/-!
# Reflection and refraction demo: mesh builders, buffer set-up, frame loop

A shallow embedding of `main.cpp` / `GLIncludes.h`.

* Numbers: the mesh builders work in a field `α` with the libm functions `sin` and
  `cos` as parameters, so the same definitions run over `ℚ` and are reasoned about
  over `ℝ`.  The cursor mapping of `update` is in IEEE 754 arithmetic: `double` and
  `float` values are the rationals they stand for, and every operation and store is
  followed by its rounding.
* State: the process-wide globals are the record `Globals`, the OpenGL context
  is the record `GLState`; every function that touches them takes the old value
  and returns the new one.
* OpenGL itself is not part of the program.  Each entry point used by the
  program is modelled by a function on `GLState` that appends the call to a
  trace and updates the piece of context state the call is documented to set.
-/

namespace ReflectionAndRefraction

/-! ## Data model (`GLIncludes.h`) -/

/-- Three-component vector, the `glm::vec3` of the program. -/
structure Vec3 (α : Type) where
  x : α
  y : α
  z : α
deriving DecidableEq, Repr

/-- Four-component vector, one column of a `glm::mat4`. -/
structure Vec4 (α : Type) where
  x : α
  y : α
  z : α
  w : α
deriving DecidableEq, Repr

/-- Column-major 4x4 matrix, the `glm::mat4` of the program: `c0 .. c3` are its columns. -/
structure Mat4 (α : Type) where
  c0 : Vec4 α
  c1 : Vec4 α
  c2 : Vec4 α
  c3 : Vec4 α
deriving DecidableEq, Repr

/-- The vertex layout `struct VertexFormat`: a position followed by a normal. -/
structure VertexFormat (α : Type) where
  position : Vec3 α
  normal : Vec3 α
deriving DecidableEq, Repr

/-- The macro `#define PI 3.147f`. -/
def PI {α : Type} [Field α] : α := 3147 / 1000

/-- Size of a `float` in bytes. -/
def sizeofFloat : Nat := 4

/-- The value of `sizeof(VertexFormat)`: two `glm::vec3`, three floats each. -/
def sizeofVertexFormat : Nat := 2 * (3 * sizeofFloat)

/-- The constructor `glm::vec3(s)`: all three components equal to `s`. -/
def Vec3.splat {α : Type} (s : α) : Vec3 α := ⟨s, s, s⟩

/-! ## Counted loops -/

/-- The loop `for (i = i0; i < n; i++) body`, for a body that does not assign `i`:
the test `i < n` is evaluated before every iteration. -/
def forLoop {σ : Type} (n : Nat) (body : σ → σ) (i : Nat) (s : σ) : σ :=
  if i < n then forLoop n body (i + 1) (body s) else s
termination_by n - i

/-! ## Sphere mesh (`setupSphere`) -/

/-- The local variables of `setupSphere` that change while its loops run. -/
structure SphereLoop (α : Type) where
  pitch : α
  yaw : α
  vertexSet : List (VertexFormat α)

/-- The four corners `p1, p2, p3, p4` one cell of `setupSphere` computes. -/
structure SphereCell (α : Type) where
  p1 : VertexFormat α
  p2 : VertexFormat α
  p3 : VertexFormat α
  p4 : VertexFormat α

section Sphere
variable {α : Type} [Field α]

/-- The assignments to `p1 .. p4` in the body of the inner loop of `setupSphere`,
for the current `pitch` and `yaw`. -/
def sphereCell (sin cos : α → α) (PI radius pitchDelta yawDelta pitch yaw : α) : SphereCell α :=
  let p1pos : Vec3 α :=
    ⟨radius * sin (pitch * PI / 180) * cos (yaw * PI / 180),
     radius * sin (pitch * PI / 180) * sin (yaw * PI / 180),
     radius * cos (pitch * PI / 180)⟩
  let p2pos : Vec3 α :=
    ⟨radius * sin (pitch * PI / 180) * cos ((yaw + yawDelta) * PI / 180),
     radius * sin (pitch * PI / 180) * sin ((yaw + yawDelta) * PI / 180),
     radius * cos (pitch * PI / 180)⟩
  let p3pos : Vec3 α :=
    ⟨radius * sin ((pitch + pitchDelta) * PI / 180) * cos ((yaw + yawDelta) * PI / 180),
     radius * sin ((pitch + pitchDelta) * PI / 180) * sin ((yaw + yawDelta) * PI / 180),
     radius * cos ((pitch + pitchDelta) * PI / 180)⟩
  let p4pos : Vec3 α :=
    ⟨radius * sin ((pitch + pitchDelta) * PI / 180) * cos (yaw * PI / 180),
     radius * sin ((pitch + pitchDelta) * PI / 180) * sin (yaw * PI / 180),
     radius * cos ((pitch + pitchDelta) * PI / 180)⟩
  { p1 := ⟨p1pos, p1pos⟩, p2 := ⟨p2pos, p2pos⟩, p3 := ⟨p3pos, p3pos⟩, p4 := ⟨p4pos, p4pos⟩ }

/-- One pass through the body of the inner (`j`) loop: compute the corners, push
`p1, p2, p3, p1, p3, p4`, then `yaw = yaw + yawDelta`. -/
def sphereInnerBody (sin cos : α → α) (PI radius pitchDelta yawDelta : α)
    (s : SphereLoop α) : SphereLoop α :=
  let c := sphereCell sin cos PI radius pitchDelta yawDelta s.pitch s.yaw
  { pitch := s.pitch
    yaw := s.yaw + yawDelta
    vertexSet := s.vertexSet ++ [c.p1, c.p2, c.p3, c.p1, c.p3, c.p4] }

/-- One pass through the body of the outer (`i`) loop: the whole inner loop
`for (j = 0; j < DIVISIONS; j++)`, then `pitch += pitchDelta`.  `yaw` is not reset. -/
def sphereOuterBody (sin cos : α → α) (PI radius pitchDelta yawDelta : α) (DIVISIONS : Nat)
    (s : SphereLoop α) : SphereLoop α :=
  let s1 := forLoop DIVISIONS (sphereInnerBody sin cos PI radius pitchDelta yawDelta) 0 s
  { s1 with pitch := s1.pitch + pitchDelta }

/-- The constant `float radius = 0.25f` of `setupSphere`. -/
def sphereRadius : α := 1 / 4

/-- The constant `float DIVISIONS = 40` of `setupSphere`. -/
def DIVISIONS : Nat := 40

/-- The value of `pitchDelta = 360 / DIVISIONS`. -/
def pitchDelta : α := 360 / (DIVISIONS : α)

/-- The value of `yawDelta = 360 / DIVISIONS`. -/
def yawDelta : α := 360 / (DIVISIONS : α)

/-- The locals of `setupSphere` before the loops: `yaw = pitch = 0`, empty `vertexSet`. -/
def sphereLoopInit : SphereLoop α := { pitch := 0, yaw := 0, vertexSet := [] }

/-- The two nested loops of `setupSphere`, with the macro `PI` as a parameter. -/
def sphereLoops (sin cos : α → α) (PI : α) : SphereLoop α :=
  forLoop DIVISIONS (sphereOuterBody sin cos PI sphereRadius pitchDelta yawDelta DIVISIONS) 0
    sphereLoopInit

/-- The `vertexSet` that `setupSphere` has built when it calls `initBuffer`. -/
def sphereVertexSet (sin cos : α → α) (PI : α) : List (VertexFormat α) :=
  (sphereLoops sin cos PI).vertexSet

/-- The locals of `setupSphere` on entry to cell `(i, j)`: after `i` complete passes of
the outer loop and `j` passes of the inner loop. -/
def sphereCellEntry (sin cos : α → α) (PI : α) (i j : Nat) : SphereLoop α :=
  forLoop j (sphereInnerBody sin cos PI sphereRadius pitchDelta yawDelta) 0
    (forLoop i (sphereOuterBody sin cos PI sphereRadius pitchDelta yawDelta DIVISIONS) 0
      sphereLoopInit)

/-- The corners `p1 .. p4` computed in cell `(i, j)` of `setupSphere`. -/
def sphereCellAt (sin cos : α → α) (PI : α) (i j : Nat) : SphereCell α :=
  let s := sphereCellEntry sin cos PI i j
  sphereCell sin cos PI sphereRadius pitchDelta yawDelta s.pitch s.yaw

end Sphere

/-! ## GLM -/

section GLM
variable {α : Type} [Field α]

/-- Scaling of a column by a number (`glm::vec4 * float`). -/
def Vec4.smul (v : Vec4 α) (k : α) : Vec4 α := ⟨v.x * k, v.y * k, v.z * k, v.w * k⟩

/-- Componentwise sum of two columns (`glm::vec4 + glm::vec4`). -/
def Vec4.add (u v : Vec4 α) : Vec4 α := ⟨u.x + v.x, u.y + v.y, u.z + v.z, u.w + v.w⟩

/-- Modelled from the spec: the header `glm/glm.hpp` is not under `src/`.  The
constructor `glm::mat4(s)` is the diagonal matrix with `s` on the diagonal. -/
def mat4 (s : α) : Mat4 α :=
  { c0 := ⟨s, 0, 0, 0⟩, c1 := ⟨0, s, 0, 0⟩, c2 := ⟨0, 0, s, 0⟩, c3 := ⟨0, 0, 0, s⟩ }

/-- Modelled from the spec: the header `glm/gtc/matrix_transform.hpp` is not under
`src/`.  The function `glm::translate(m, v)` keeps the first three columns of `m` and
replaces the last one by `m[0] * v[0] + m[1] * v[1] + m[2] * v[2] + m[3]`. -/
def translate (m : Mat4 α) (v : Vec3 α) : Mat4 α :=
  { m with c3 := (((m.c0.smul v.x).add (m.c1.smul v.y)).add (m.c2.smul v.z)).add m.c3 }

end GLM

/-! ## The OpenGL context -/

/-- Object names and other `GLuint` values. -/
abbrev GLuint := Nat

/-- The enumerators of `glew.h` that the program passes to OpenGL. -/
inductive GLenum
  | GL_ARRAY_BUFFER
  | GL_STATIC_DRAW
  | GL_FLOAT
  | GL_TRIANGLES
  | GL_TEXTURE0
  | GL_TEXTURE_CUBE_MAP
  | GL_VERTEX_SHADER
  | GL_FRAGMENT_SHADER
  | GL_COMPILE_STATUS
  | GL_DEPTH_TEST
  | GL_CCW
  | GL_CULL_FACE
  | GL_FRONT
  | GL_FILL
  | GL_BLEND
  | GL_SRC_ALPHA
  | GL_ONE_MINUS_SRC_ALPHA
deriving DecidableEq, Repr

open GLenum

/-- The `GLboolean` constant `GL_FALSE`. -/
def GL_FALSE : Nat := 0

/-- The `GLboolean` constant `GL_TRUE`. -/
def GL_TRUE : Nat := 1

/-- The clear mask bit `GL_COLOR_BUFFER_BIT`. -/
def GL_COLOR_BUFFER_BIT : Nat := 0x4000

/-- The clear mask bit `GL_DEPTH_BUFFER_BIT`. -/
def GL_DEPTH_BUFFER_BIT : Nat := 0x100

/-- Conversion of a `GLint` to `GLuint` (32 bits, wrapping). -/
def toGLuint (v : Int) : GLuint := (v % 4294967296).toNat

/-- The first `n` characters of a C string. -/
def cstrTake (n : Nat) (s : String) : String := ⟨s.data.take n⟩

/-- The characters of a text before its first zero character: what a reader of a
zero-terminated C string sees. -/
def cstr (s : String) : String := ⟨s.data.takeWhile (fun c => c != Char.ofNat 0)⟩

/-- Narrowing of an integer to `int` (32 bits, two's complement, wrapping). -/
def toInt32 (n : Int) : Int := (n + 2147483648) % 4294967296 - 2147483648

/-- What the OpenGL implementation decides and the program only observes: the outcome of
compiling a source text as a given stage (status and information log), and the location
of a named attribute in a program. -/
structure Driver where
  compile : GLenum → String → Bool × String
  attribLocation : GLuint → String → Int

/-- A shader object of the context. -/
structure ShaderObject where
  name : GLuint
  shaderType : GLenum
  source : String
  compileStatus : Bool
  infoLog : String
  deleteStatus : Bool
deriving DecidableEq, Repr

/-- A program object of the context: its name, the shaders attached to it, and whether it
is flagged for deletion. -/
structure ProgramObject where
  name : GLuint
  attached : List GLuint
  deleteStatus : Bool
deriving DecidableEq, Repr

/-- One entry of the trace of OpenGL calls, with the arguments passed (and, for the
generators and `glCreateShader`, the name handed back). -/
inductive GLCall (α : Type)
  | glGenVertexArrays (n : Nat) (arrays : GLuint)
  | glGenBuffers (n : Nat) (buffers : GLuint)
  | glBindVertexArray (array : GLuint)
  | glBindBuffer (target : GLenum) (buffer : GLuint)
  | glBufferData (target : GLenum) (size : Int) (data : List (VertexFormat α)) (usage : GLenum)
  | glGetAttribLocation (program : GLuint) (name : String)
  | glEnableVertexAttribArray (index : GLuint)
  | glVertexAttribPointer (index : GLuint) (size : Int) (type : GLenum) (normalized : Nat)
      (stride : Nat) (pointer : Nat)
  | glClear (mask : Nat)
  | glClearColor (red green blue alpha : α)
  | glUseProgram (program : GLuint)
  | glDepthMask (flag : Nat)
  | glActiveTexture (texture : GLenum)
  | glBindTexture (target : GLenum) (texture : GLuint)
  | glDrawArrays (mode : GLenum) (first : Int) (count : Int)
  | glUniformMatrix4fv (location : GLuint) (count : Int) (transpose : Nat) (value : Mat4 α)
  | glUniform3f (location : GLuint) (v0 v1 v2 : α)
  | glCreateShader (shaderType : GLenum) (shader : GLuint)
  | glShaderSource (shader : GLuint) (count : Int) (string : String) (length : Int)
  | glCompileShader (shader : GLuint)
  | glGetShaderiv (shader : GLuint) (pname : GLenum)
  | glGetShaderInfoLog (shader : GLuint) (maxLength : Nat)
  | glDeleteShader (shader : GLuint)
  | glEnable (cap : GLenum)
  | glCreateProgram (program : GLuint)
  | glAttachShader (program : GLuint) (shader : GLuint)
  | glLinkProgram (program : GLuint)
  | glGetUniformLocation (program : GLuint) (name : String)
  | glFrontFace (mode : GLenum)
  | glPolygonMode (face : GLenum) (mode : GLenum)
  | glBlendFunc (sfactor : GLenum) (dfactor : GLenum)
  | glDeleteProgram (program : GLuint)
deriving DecidableEq, Repr

/-- A draw call as the context sees it: the program in use, the vertex array bound and
the depth write mask at the moment of the call, and the arguments of `glDrawArrays`. -/
structure DrawRecord where
  program : GLuint
  vao : GLuint
  depthMask : Bool
  mode : GLenum
  first : Int
  count : Int
deriving DecidableEq, Repr

/-- The part of the OpenGL context the program reads or writes. -/
structure GLState (α : Type) where
  vertexArrays : List GLuint
  buffers : List GLuint
  bufferData : List (GLuint × List (VertexFormat α))
  shaders : List ShaderObject
  programs : List ProgramObject
  boundVertexArray : GLuint
  boundArrayBuffer : GLuint
  currentProgram : GLuint
  depthMask : Bool
  activeTexture : GLenum
  boundTextureCubeMap : GLuint
  draws : List DrawRecord
  calls : List (GLCall α)

/-- A context right after creation: no objects, nothing bound, depth writes enabled. -/
def GLState.initial (α : Type) : GLState α :=
  { vertexArrays := [], buffers := [], bufferData := [], shaders := [], programs := [],
    boundVertexArray := 0, boundArrayBuffer := 0, currentProgram := 0, depthMask := true,
    activeTexture := GL_TEXTURE0, boundTextureCubeMap := 0, draws := [], calls := [] }

/-- A name that is not zero and not in `used`: one more than the largest name in use. -/
def freshName (used : List GLuint) : GLuint := used.foldr max 0 + 1

section Context
variable {α : Type}

/-- The call `glGenVertexArrays(1, &arrays)`: hands back an unused, non-zero name. -/
def glGenVertexArrays (gl : GLState α) : GLuint × GLState α :=
  let arrays := freshName gl.vertexArrays
  (arrays, { gl with vertexArrays := arrays :: gl.vertexArrays
                     calls := gl.calls ++ [GLCall.glGenVertexArrays 1 arrays] })

/-- The call `glGenBuffers(1, &buffers)`: hands back an unused, non-zero name. -/
def glGenBuffers (gl : GLState α) : GLuint × GLState α :=
  let buffers := freshName gl.buffers
  (buffers, { gl with buffers := buffers :: gl.buffers
                      calls := gl.calls ++ [GLCall.glGenBuffers 1 buffers] })

/-- The call `glBindVertexArray(array)`: `array` becomes the vertex array binding. -/
def glBindVertexArray (array : GLuint) (gl : GLState α) : GLState α :=
  { gl with boundVertexArray := array, calls := gl.calls ++ [GLCall.glBindVertexArray array] }

/-- The call `glBindBuffer(target, buffer)`: for `GL_ARRAY_BUFFER`, `buffer` becomes the
array buffer binding, which belongs to the context and not to the bound vertex array. -/
def glBindBuffer (target : GLenum) (buffer : GLuint) (gl : GLState α) : GLState α :=
  { gl with boundArrayBuffer := if target = GL_ARRAY_BUFFER then buffer else gl.boundArrayBuffer
            calls := gl.calls ++ [GLCall.glBindBuffer target buffer] }

/-- The call `glBufferData(target, size, data, usage)` with `size` the byte size of
`count` vertices: the buffer bound to `GL_ARRAY_BUFFER` receives the first `count`
vertices of `data`. -/
def glBufferData (target : GLenum) (count : Int) (data : List (VertexFormat α)) (usage : GLenum)
    (gl : GLState α) : GLState α :=
  { gl with bufferData := (gl.boundArrayBuffer, data.take count.toNat) :: gl.bufferData
            calls := gl.calls ++
              [GLCall.glBufferData target (sizeofVertexFormat * count) (data.take count.toNat)
                usage] }

/-- The call `glGetAttribLocation(program, name)`. -/
def glGetAttribLocation (drv : Driver) (program : GLuint) (name : String) (gl : GLState α) :
    Int × GLState α :=
  (drv.attribLocation program name,
   { gl with calls := gl.calls ++ [GLCall.glGetAttribLocation program name] })

/-- The call `glEnableVertexAttribArray(index)`. -/
def glEnableVertexAttribArray (index : GLuint) (gl : GLState α) : GLState α :=
  { gl with calls := gl.calls ++ [GLCall.glEnableVertexAttribArray index] }

/-- The call `glVertexAttribPointer(index, size, type, normalized, stride, pointer)`. -/
def glVertexAttribPointer (index : GLuint) (size : Int) (type : GLenum) (normalized : Nat)
    (stride : Nat) (pointer : Nat) (gl : GLState α) : GLState α :=
  { gl with calls := gl.calls ++
      [GLCall.glVertexAttribPointer index size type normalized stride pointer] }

/-- The call `glClear(mask)`. -/
def glClear (mask : Nat) (gl : GLState α) : GLState α :=
  { gl with calls := gl.calls ++ [GLCall.glClear mask] }

/-- The call `glClearColor(red, green, blue, alpha)`. -/
def glClearColor (red green blue alpha : α) (gl : GLState α) : GLState α :=
  { gl with calls := gl.calls ++ [GLCall.glClearColor red green blue alpha] }

/-- The call `glUseProgram(program)`: `program` becomes the program in use. -/
def glUseProgram (program : GLuint) (gl : GLState α) : GLState α :=
  { gl with currentProgram := program, calls := gl.calls ++ [GLCall.glUseProgram program] }

/-- The call `glDepthMask(flag)`: depth writes are enabled exactly when `flag` is not
`GL_FALSE`. -/
def glDepthMask (flag : Nat) (gl : GLState α) : GLState α :=
  { gl with depthMask := decide (flag ≠ GL_FALSE), calls := gl.calls ++ [GLCall.glDepthMask flag] }

/-- The call `glActiveTexture(texture)`. -/
def glActiveTexture (texture : GLenum) (gl : GLState α) : GLState α :=
  { gl with activeTexture := texture, calls := gl.calls ++ [GLCall.glActiveTexture texture] }

/-- The call `glBindTexture(target, texture)`. -/
def glBindTexture (target : GLenum) (texture : GLuint) (gl : GLState α) : GLState α :=
  { gl with boundTextureCubeMap :=
              if target = GL_TEXTURE_CUBE_MAP then texture else gl.boundTextureCubeMap
            calls := gl.calls ++ [GLCall.glBindTexture target texture] }

/-- The call `glDrawArrays(mode, first, count)`: one draw with the current program,
vertex array and depth mask. -/
def glDrawArrays (mode : GLenum) (first count : Int) (gl : GLState α) : GLState α :=
  { gl with draws := gl.draws ++
              [{ program := gl.currentProgram, vao := gl.boundVertexArray,
                 depthMask := gl.depthMask, mode := mode, first := first, count := count }]
            calls := gl.calls ++ [GLCall.glDrawArrays mode first count] }

/-- The call `glUniformMatrix4fv(location, count, transpose, value)`. -/
def glUniformMatrix4fv (location : GLuint) (count : Int) (transpose : Nat) (value : Mat4 α)
    (gl : GLState α) : GLState α :=
  { gl with calls := gl.calls ++ [GLCall.glUniformMatrix4fv location count transpose value] }

/-- The call `glUniform3f(location, v0, v1, v2)`. -/
def glUniform3f (location : GLuint) (v0 v1 v2 : α) (gl : GLState α) : GLState α :=
  { gl with calls := gl.calls ++ [GLCall.glUniform3f location v0 v1 v2] }

/-- Whether a name is the name of a shader object of the context. -/
def GLState.isShader (gl : GLState α) (shader : GLuint) : Bool :=
  gl.shaders.any (fun o => o.name == shader)

/-- Whether a shader is attached to some program object of the context. -/
def GLState.isAttached (gl : GLState α) (shader : GLuint) : Bool :=
  gl.programs.any (fun p => p.attached.contains shader)

/-- The names in use in the context: those of its shader objects, those of its program
objects (shader and program objects share their names), and those under which a shader is
attached to a program. -/
def GLState.usedNames (gl : GLState α) : List GLuint :=
  gl.shaders.map (·.name) ++ gl.programs.map (·.name) ++ (gl.programs.map (·.attached)).flatten

/-- The call `glCreateShader(shaderType)`: for a shader stage, a new empty shader object
under a non-zero name that is not in use; for any other enumerator no object and the
value 0. -/
def glCreateShader (shaderType : GLenum) (gl : GLState α) : GLuint × GLState α :=
  if shaderType = GL_VERTEX_SHADER ∨ shaderType = GL_FRAGMENT_SHADER then
    let shader := freshName gl.usedNames
    (shader,
     { gl with shaders := gl.shaders ++
                 [{ name := shader, shaderType := shaderType, source := "",
                    compileStatus := false, infoLog := "", deleteStatus := false }]
               calls := gl.calls ++ [GLCall.glCreateShader shaderType shader] })
  else
    (0, { gl with calls := gl.calls ++ [GLCall.glCreateShader shaderType 0] })

/-- The call `glShaderSource(shader, 1, &string, &length)`: the source of the shader
object becomes the first `length` characters of `string`, or, when `length` is negative,
`string` read as a zero-terminated text. -/
def glShaderSource (shader : GLuint) (string : String) (length : Int) (gl : GLState α) :
    GLState α :=
  { gl with shaders := gl.shaders.map (fun o =>
              if o.name = shader then
                { o with source :=
                    if length < 0 then cstr string else cstrTake length.toNat string }
              else o)
            calls := gl.calls ++ [GLCall.glShaderSource shader 1 string length] }

/-- The call `glCompileShader(shader)`: the compile status and the information log of the
shader object become what the implementation makes of its source. -/
def glCompileShader (drv : Driver) (shader : GLuint) (gl : GLState α) : GLState α :=
  { gl with shaders := gl.shaders.map (fun o =>
              if o.name = shader then
                { o with compileStatus := (drv.compile o.shaderType o.source).1
                         infoLog := (drv.compile o.shaderType o.source).2 }
              else o)
            calls := gl.calls ++ [GLCall.glCompileShader shader] }

/-- The call `glGetShaderiv(shader, GL_COMPILE_STATUS, &params)`: `params` receives 1 or
0 for a shader object, and keeps its old value when `shader` names none. -/
def glGetShaderiv (shader : GLuint) (pname : GLenum) (params : Int) (gl : GLState α) :
    Int × GLState α :=
  ((match gl.shaders.find? (fun o => o.name == shader) with
    | some o => if o.compileStatus then 1 else 0
    | none => params),
   { gl with calls := gl.calls ++ [GLCall.glGetShaderiv shader pname] })

/-- The call `glGetShaderInfoLog(shader, maxLength, NULL, infoLog)`: the buffer receives
the information log cut to `maxLength - 1` characters (one place is kept for the
terminating zero), and keeps its old contents when `shader` names no shader object. -/
def glGetShaderInfoLog (shader : GLuint) (maxLength : Nat) (infoLog : String) (gl : GLState α) :
    String × GLState α :=
  ((match gl.shaders.find? (fun o => o.name == shader) with
    | some o => cstrTake (maxLength - 1) o.infoLog
    | none => infoLog),
   { gl with calls := gl.calls ++ [GLCall.glGetShaderInfoLog shader maxLength] })

/-- The call `glDeleteShader(shader)`: a shader object attached to no program is deleted
at once, an attached one is only flagged for deletion. -/
def glDeleteShader (shader : GLuint) (gl : GLState α) : GLState α :=
  { gl with shaders :=
              if gl.isAttached shader then
                gl.shaders.map (fun o => if o.name = shader then { o with deleteStatus := true } else o)
              else
                gl.shaders.filter (fun o => o.name != shader)
            calls := gl.calls ++ [GLCall.glDeleteShader shader] }

/-- Whether a name is the name of a program object of the context. -/
def GLState.isProgram (gl : GLState α) (program : GLuint) : Bool :=
  gl.programs.any (fun p => p.name == program)

/-- The call `glEnable(cap)`. -/
def glEnable (cap : GLenum) (gl : GLState α) : GLState α :=
  { gl with calls := gl.calls ++ [GLCall.glEnable cap] }

/-- The call `glCreateProgram()`: a new empty program object under a non-zero name that is
not in use. -/
def glCreateProgram (gl : GLState α) : GLuint × GLState α :=
  let program := freshName gl.usedNames
  (program,
   { gl with programs := gl.programs ++
               [{ name := program, attached := [], deleteStatus := false }]
             calls := gl.calls ++ [GLCall.glCreateProgram program] })

/-- The call `glAttachShader(program, shader)`: a shader object of the context that is not
yet attached to the program becomes attached to it; any other `shader` is an error and
nothing is attached. -/
def glAttachShader (program : GLuint) (shader : GLuint) (gl : GLState α) : GLState α :=
  { gl with programs :=
              if gl.isShader shader then
                gl.programs.map (fun p =>
                  if p.name = program ∧ ¬ shader ∈ p.attached then
                    { p with attached := p.attached ++ [shader] }
                  else p)
              else gl.programs
            calls := gl.calls ++ [GLCall.glAttachShader program shader] }

/-- The call `glLinkProgram(program)`. -/
def glLinkProgram (program : GLuint) (gl : GLState α) : GLState α :=
  { gl with calls := gl.calls ++ [GLCall.glLinkProgram program] }

/-- The call `glGetUniformLocation(program, name)`, with the locations the implementation
has given as a parameter. -/
def glGetUniformLocation (uniformLocation : GLuint → String → Int) (program : GLuint)
    (name : String) (gl : GLState α) : Int × GLState α :=
  (uniformLocation program name,
   { gl with calls := gl.calls ++ [GLCall.glGetUniformLocation program name] })

/-- The call `glFrontFace(mode)`. -/
def glFrontFace (mode : GLenum) (gl : GLState α) : GLState α :=
  { gl with calls := gl.calls ++ [GLCall.glFrontFace mode] }

/-- The call `glPolygonMode(face, mode)`. -/
def glPolygonMode (face mode : GLenum) (gl : GLState α) : GLState α :=
  { gl with calls := gl.calls ++ [GLCall.glPolygonMode face mode] }

/-- The call `glBlendFunc(sfactor, dfactor)`. -/
def glBlendFunc (sfactor dfactor : GLenum) (gl : GLState α) : GLState α :=
  { gl with calls := gl.calls ++ [GLCall.glBlendFunc sfactor dfactor] }

/-- The call `glDeleteProgram(program)`: a program object that is the program in use is
only flagged for deletion; any other one is deleted at once, its shaders are detached, and
those of them that are flagged for deletion and attached to no remaining program are
deleted too. -/
def glDeleteProgram (program : GLuint) (gl : GLState α) : GLState α :=
  if program = gl.currentProgram then
    { gl with programs := gl.programs.map (fun p =>
                if p.name = program then { p with deleteStatus := true } else p)
              calls := gl.calls ++ [GLCall.glDeleteProgram program] }
  else
    let detached := (gl.programs.filter (fun p => p.name == program)).map (·.attached)
    let programs := gl.programs.filter (fun p => p.name != program)
    { gl with programs := programs
              shaders := gl.shaders.filter (fun o =>
                !(o.deleteStatus && detached.any (fun l => l.contains o.name)
                  && !programs.any (fun p => p.attached.contains o.name)))
              calls := gl.calls ++ [GLCall.glDeleteProgram program] }

end Context

/-! ## Program state -/

/-- The record `struct stuff_for_drawing`: vertex array, vertex buffer, vertex count. -/
structure stuff_for_drawing where
  vao : GLuint
  vbo : GLuint
  numberOfVertices : Int
deriving DecidableEq, Repr

/-- The record `struct sphere`. -/
structure sphere (α : Type) where
  Translation : Mat4 α
  origin : Vec3 α
  lightingtype : GLuint
  base : stuff_for_drawing
deriving DecidableEq, Repr

/-- The global variables of `main.cpp` (the window handle apart). -/
structure Globals (α : Type) where
  program : GLuint
  programSB : GLuint
  vertex_shader : GLuint
  fragment_shader : GLuint
  vertex_shaderSB : GLuint
  fragment_shaderSB : GLuint
  camPosUniform : GLuint
  skybox : GLuint
  uniPV : GLuint
  uniTranslation : GLuint
  PV : Mat4 α
  skyBox : stuff_for_drawing
  sphere1 : sphere α
deriving DecidableEq, Repr

/-- The stream manipulator `std::endl`, as the text it writes. -/
def endl : String := "\n"

section Program
variable {α : Type} [Field α]

set_option linter.unusedVariables false in
/-- The method `stuff_for_drawing::initBuffer(numVertices, vertices, programID)`, called
on the object `self`, with the global `program` it reads as a parameter.  The attribute
locations are asked of `program`; the parameter `programID` is not used by the body.
The line `glBindBuffer(GL_ARRAY_BUFFER, 0)` is commented out in the source and has no
counterpart here. -/
def initBuffer (drv : Driver) (program : GLuint) (self : stuff_for_drawing)
    (numVertices : Int) (vertices : List (VertexFormat α)) (programID : GLuint)
    (gl : GLState α) : stuff_for_drawing × GLState α :=
  let self1 := { self with numberOfVertices := numVertices }
  let r1 := glGenVertexArrays gl
  let self2 := { self1 with vao := r1.1 }
  let r2 := glGenBuffers r1.2
  let self3 := { self2 with vbo := r2.1 }
  let gl3 := glBindVertexArray self3.vao r2.2
  let gl4 := glBindBuffer GL_ARRAY_BUFFER self3.vbo gl3
  let gl5 := glBufferData GL_ARRAY_BUFFER numVertices vertices GL_STATIC_DRAW gl4
  let r6 := glGetAttribLocation drv program "in_position" gl5
  let gl7 := glEnableVertexAttribArray (toGLuint r6.1) r6.2
  let r8 := glGetAttribLocation drv program "in_position" gl7
  let gl9 := glVertexAttribPointer (toGLuint r8.1) 3 GL_FLOAT GL_FALSE sizeofVertexFormat
    (0 * sizeofFloat) r8.2
  let r10 := glGetAttribLocation drv program "in_normal" gl9
  let gl11 := glEnableVertexAttribArray (toGLuint r10.1) r10.2
  let r12 := glGetAttribLocation drv program "in_normal" gl11
  let gl13 := glVertexAttribPointer (toGLuint r12.1) 3 GL_FLOAT GL_FALSE sizeofVertexFormat
    (3 * sizeofFloat) r12.2
  let gl14 := glBindVertexArray 0 gl13
  (self3, gl14)

/-- The function `setupSphere`, with `sin`, `cos` and the macro `PI` as parameters: build
the vertex set, hand it to `sphere1.base.initBuffer` with the global `program`, put the
origin at zero and the translation at the translation by the origin. -/
def setupSphere (drv : Driver) (sin cos : α → α) (PI : α) (g : Globals α) (gl : GLState α) :
    Globals α × GLState α :=
  let vertexSet := sphereVertexSet sin cos PI
  let r := initBuffer drv g.program g.sphere1.base (vertexSet.length : Int) vertexSet g.program gl
  let origin : Vec3 α := Vec3.mk 0 0 0
  ({ g with sphere1 := { g.sphere1 with base := r.1, origin := origin,
                                        Translation := translate (mat4 1) origin } },
   r.2)

/-- The `vertexSet` that `setupSkyBox` has built when it calls `initBuffer`; the comments
are those of the source. -/
def skyBoxVertexSet : List (VertexFormat α) :=
  [
    -- xy plane (+z axis)
    VertexFormat.mk (Vec3.mk 1 1 (-1)) (Vec3.splat 0),
    VertexFormat.mk (Vec3.mk (-1) 1 (-1)) (Vec3.splat 0),
    VertexFormat.mk (Vec3.mk (-1) (-1) (-1)) (Vec3.splat 0),
    VertexFormat.mk (Vec3.mk 1 1 (-1)) (Vec3.splat 0),
    VertexFormat.mk (Vec3.mk (-1) (-1) (-1)) (Vec3.splat 0),
    VertexFormat.mk (Vec3.mk 1 (-1) (-1)) (Vec3.splat 0),
    -- xy plane (-z axis)
    VertexFormat.mk (Vec3.mk 1 1 (-1)) (Vec3.splat 0),
    VertexFormat.mk (Vec3.mk (-1) (-1) (-1)) (Vec3.splat 0),
    VertexFormat.mk (Vec3.mk (-1) 1 (-1)) (Vec3.splat 0),
    VertexFormat.mk (Vec3.mk 1 1 (-1)) (Vec3.splat 0),
    VertexFormat.mk (Vec3.mk 1 (-1) (-1)) (Vec3.splat 0),
    VertexFormat.mk (Vec3.mk (-1) (-1) (-1)) (Vec3.splat 0),
    -- yz plane (+x axis)
    VertexFormat.mk (Vec3.mk 1 1 1) (Vec3.splat 0),
    VertexFormat.mk (Vec3.mk 1 1 (-1)) (Vec3.splat 0),
    VertexFormat.mk (Vec3.mk 1 (-1) (-1)) (Vec3.splat 0),
    VertexFormat.mk (Vec3.mk 1 1 1) (Vec3.splat 0),
    VertexFormat.mk (Vec3.mk 1 (-1) (-1)) (Vec3.splat 0),
    VertexFormat.mk (Vec3.mk 1 (-1) 1) (Vec3.splat 0),
    -- yz plane (-x axis)
    VertexFormat.mk (Vec3.mk (-1) 1 1) (Vec3.splat 0),
    VertexFormat.mk (Vec3.mk (-1) (-1) 1) (Vec3.splat 0),
    VertexFormat.mk (Vec3.mk (-1) (-1) (-1)) (Vec3.splat 0),
    VertexFormat.mk (Vec3.mk (-1) 1 1) (Vec3.splat 0),
    VertexFormat.mk (Vec3.mk (-1) (-1) (-1)) (Vec3.splat 0),
    VertexFormat.mk (Vec3.mk (-1) 1 (-1)) (Vec3.splat 0),
    -- xz plane (+y axis)
    VertexFormat.mk (Vec3.mk 1 1 1) (Vec3.splat 0),
    VertexFormat.mk (Vec3.mk (-1) 1 1) (Vec3.splat 0),
    VertexFormat.mk (Vec3.mk (-1) 1 (-1)) (Vec3.splat 0),
    VertexFormat.mk (Vec3.mk 1 1 1) (Vec3.splat 0),
    VertexFormat.mk (Vec3.mk (-1) 1 (-1)) (Vec3.splat 0),
    VertexFormat.mk (Vec3.mk 1 1 (-1)) (Vec3.splat 0),
    -- xz plane (-y axis)
    VertexFormat.mk (Vec3.mk 1 (-1) 1) (Vec3.splat 0),
    VertexFormat.mk (Vec3.mk 1 (-1) (-1)) (Vec3.splat 0),
    VertexFormat.mk (Vec3.mk (-1) (-1) (-1)) (Vec3.splat 0),
    VertexFormat.mk (Vec3.mk 1 (-1) 1) (Vec3.splat 0),
    VertexFormat.mk (Vec3.mk (-1) (-1) (-1)) (Vec3.splat 0),
    VertexFormat.mk (Vec3.mk (-1) (-1) 1) (Vec3.splat 0)
  ]

/-- The function `setupSkyBox`: hand the vertex set to `skyBox.initBuffer` with the
global `programSB` as `programID`. -/
def setupSkyBox (drv : Driver) (g : Globals α) (gl : GLState α) : Globals α × GLState α :=
  let vertexSet : List (VertexFormat α) := skyBoxVertexSet
  let r := initBuffer drv g.program g.skyBox (vertexSet.length : Int) vertexSet g.programSB gl
  ({ g with skyBox := r.1 }, r.2)

/-- The function `renderScene`. -/
def renderScene (g : Globals α) (gl : GLState α) : GLState α :=
  let gl1 := glClear (GL_COLOR_BUFFER_BIT ||| GL_DEPTH_BUFFER_BIT) gl
  let gl2 := glClearColor (3 / 10) (3 / 10) (3 / 10) 1 gl1
  let gl3 := glUseProgram g.programSB gl2
  let gl4 := glDepthMask GL_FALSE gl3
  let gl5 := glBindVertexArray g.skyBox.vao gl4
  let gl6 := glActiveTexture GL_TEXTURE0 gl5
  let gl7 := glBindTexture GL_TEXTURE_CUBE_MAP g.skybox gl6
  let gl8 := glDrawArrays GL_TRIANGLES 0 g.skyBox.numberOfVertices gl7
  let gl9 := glDepthMask GL_TRUE gl8
  let gl10 := glBindVertexArray 0 gl9
  let gl11 := glUseProgram g.program gl10
  let gl12 := glBindVertexArray g.sphere1.base.vao gl11
  let gl13 := glBindTexture GL_TEXTURE_CUBE_MAP g.skybox gl12
  let gl14 := glUniformMatrix4fv g.uniPV 1 GL_FALSE g.PV gl13
  let gl15 := glUniformMatrix4fv g.uniTranslation 1 GL_FALSE g.sphere1.Translation gl14
  let gl16 := glUniform3f g.camPosUniform 0 0 2 gl15
  let gl17 := glDrawArrays GL_TRIANGLES 0 g.sphere1.base.numberOfVertices gl16
  glBindVertexArray 0 gl17

end Program

/-! ## Floating point and the cursor -/

/-- The integer nearest to a rational number, the even one of the two when it lies half
way between them. -/
def roundHalfEven (q : ℚ) : ℤ :=
  if q - ⌊q⌋ < 1 / 2 then ⌊q⌋
  else if 1 / 2 < q - ⌊q⌋ then ⌊q⌋ + 1
  else if ⌊q⌋ % 2 = 0 then ⌊q⌋
  else ⌊q⌋ + 1

/-- Rounding to binary floating point (IEEE 754, round to nearest, ties to even): the
number with `p` significant bits and exponent at least `emin` nearest to `q`.  Below
`2^emin` the spacing stays that of the least exponent (subnormal numbers); the exponent is
not bounded above here. -/
def roundBinary (p : Nat) (emin : Int) (q : ℚ) : ℚ :=
  if q = 0 then 0
  else
    (roundHalfEven (q / 2 ^ (max (Int.log 2 |q|) emin - ((p : Int) - 1))) : ℚ)
      * 2 ^ (max (Int.log 2 |q|) emin - ((p : Int) - 1))

/-- The largest finite `double`. -/
def doubleMax : ℚ := (2 ^ 53 - 1) * 2 ^ 971

/-- The largest finite `float`. -/
def floatMax : ℚ := (2 ^ 24 - 1) * 2 ^ 104

/-- The `double` (53 significant bits, least exponent -1022) that an arithmetic operation
with exact result `q` delivers; `none` when that is not a finite number (overflow). -/
def toDouble (q : ℚ) : Option ℚ :=
  if |roundBinary 53 (-1022) q| ≤ doubleMax then some (roundBinary 53 (-1022) q) else none

/-- The `float` (24 significant bits, least exponent -126) that storing the number `q`
into a `float` delivers; `none` when that is not a finite number (overflow). -/
def toFloat (q : ℚ) : Option ℚ :=
  if |roundBinary 24 (-126) q| ≤ floatMax then some (roundBinary 24 (-126) q) else none

/-- The function `update`, on globals whose numbers are rational, with the cursor position
`x, y` that `glfwGetCursorPos` delivers (two finite `double` values) as parameters.  The
constants `800.0f`, `2.0f`, `1.0f` are promoted to `double`, each of the three operations
is rounded to `double`, the negation is exact, and the assignment to the `float` members of
`origin` rounds to `float`.  The result is `none` when one of these values is not a finite
number.  `glm::translate` on the identity matrix only multiplies by 0 and 1 and adds 0, which
is exact in `float`. -/
def update (x y : ℚ) (g : Globals ℚ) : Option (Globals ℚ) :=
  (toDouble (x / 800)).bind fun x1 =>
  (toDouble (x1 * 2)).bind fun x2 =>
  (toDouble (x2 - 1)).bind fun x3 =>
  (toFloat x3).bind fun originX =>
  (toDouble (y / 800)).bind fun y1 =>
  (toDouble (y1 * 2)).bind fun y2 =>
  (toDouble (y2 - 1)).bind fun y3 =>
  (toFloat (-y3)).bind fun originY =>
  let origin1 := { g.sphere1.origin with x := originX }
  let origin2 := { origin1 with y := originY }
  some { g with sphere1 := { g.sphere1 with origin := origin2,
                                            Translation := translate (mat4 1) origin2 } }

/-- The function `createShader`, on the context `gl` and the text `out` written to
`std::cout` so far.  The local `infolog[1024]` is not initialised in the source; it
starts here as the empty text, and `glGetShaderInfoLog` overwrites it whenever `shader`
names a shader object. -/
def createShader {α : Type} (drv : Driver) (sourceCode : String) (shaderType : GLenum)
    (gl : GLState α) (out : List String) : GLuint × GLState α × List String :=
  let r1 := glCreateShader shaderType gl
  let shader := r1.1
  let shader_code_ptr := sourceCode
  let shader_code_size : Int := toInt32 sourceCode.length
  let gl2 := glShaderSource shader shader_code_ptr shader_code_size r1.2
  let gl3 := glCompileShader drv shader gl2
  let isCompiled : Int := 0
  let r4 := glGetShaderiv shader GL_COMPILE_STATUS isCompiled gl3
  if r4.1 = (GL_FALSE : Int) then
    let infolog : String := ""
    let r5 := glGetShaderInfoLog shader 1024 infolog r4.2
    let out1 := out ++ ["The shader failed to compile with the error:", endl, r5.1, endl]
    let gl6 := glDeleteShader shader r5.2
    (shader, gl6, out1)
  else
    (shader, r4.2, out)

/-! ## Shader files and start-up -/

/-- A file the process can open for reading: its characters as stored, and whether the
stream opened on it can seek (a regular file can, a pipe or a device cannot). -/
structure File where
  contents : String
  seekable : Bool
deriving DecidableEq, Repr

/-- The files the process can open for reading: a partial map from paths to files. -/
abbrev FileSystem := String → Option File

/-- What a Windows stream opened in text mode delivers for the characters stored: a carriage
return (13) followed by a line feed (10) is delivered as the line feed alone, and the
character 26 (Ctrl-Z) ends the input. -/
def windowsTextModeChars : List Char → List Char
  | [] => []
  | c :: rest =>
    if c = Char.ofNat 26 then []
    else if c = Char.ofNat 13 ∧ rest.head? = some (Char.ofNat 10) then windowsTextModeChars rest
    else c :: windowsTextModeChars rest

/-- Text-mode reading on Windows, on strings. -/
def windowsTextMode (s : String) : String := ⟨windowsTextModeChars s.data⟩

/-- The function `readShader`, on the files `fs` and the text `out` written to `std::cout`
so far; `textMode` is what a stream opened without `std::ios::binary` delivers for the
characters stored in a file (the identity where text and binary mode agree).  A file that
cannot be opened is a path without a file.  Otherwise `seekg(0, end)` and `tellg` give the
stored size, or -1 when the stream cannot seek; the cast `(unsigned int)` keeps that value
modulo `2^32`; `resize` makes `shaderCode` that many zero characters; `seekg(0, beg)` and
`read` overwrite them from the start with the characters the stream delivers, as many as
there are but no more than the size, and none at all on a stream whose seek has failed. -/
def readShader (textMode : String → String) (fs : FileSystem) (fileName : String)
    (out : List String) : String × List String :=
  match fs fileName with
  | none => ("", out ++ ["Can't read file: ", fileName, endl])
  | some file =>
    let endPos : Int := if file.seekable then (file.contents.length : Int) else -1
    let size : Nat := (endPos % 4294967296).toNat
    let shaderCode : String := ⟨List.replicate size (Char.ofNat 0)⟩
    let got : List Char :=
      if file.seekable then (textMode file.contents).data.take shaderCode.length else []
    (⟨got ++ shaderCode.data.drop got.length⟩, out)

/-- The function `init`, on the files `fs` read through `textMode`, the globals, the context
and the text written to `std::cout` so far; `glewInit` has no counterpart.  The assignments to the globals
`vertex_shader` .. `uniTranslation` are gathered in the record returned. -/
def init {α : Type} (textMode : String → String) (fs : FileSystem) (drv : Driver) (uniformLocation : GLuint → String → Int)
    (g : Globals α) (gl : GLState α) (out : List String) :
    Globals α × GLState α × List String :=
  let gl1 := glEnable GL_DEPTH_TEST gl
  let vertShader := readShader textMode fs "VertexShader.glsl" out
  let fragShader := readShader textMode fs "FragmentShader.glsl" vertShader.2
  let SBvertShader := readShader textMode fs "VertexShaderSkyBox.glsl" fragShader.2
  let SBfragShader := readShader textMode fs "FragmentShaderSkyBox.glsl" SBvertShader.2
  let r2 := createShader drv vertShader.1 GL_VERTEX_SHADER gl1 SBfragShader.2
  let vertex_shader : GLuint := r2.1
  let r3 := createShader drv fragShader.1 GL_FRAGMENT_SHADER r2.2.1 r2.2.2
  let fragment_shader : GLuint := r3.1
  let r4 := glCreateProgram r3.2.1
  let program : GLuint := r4.1
  let gl5 := glAttachShader program vertex_shader r4.2
  let gl6 := glAttachShader program fragment_shader gl5
  let gl7 := glLinkProgram program gl6
  let r8 := createShader drv SBvertShader.1 GL_VERTEX_SHADER gl7 r3.2.2
  let vertex_shaderSB : GLuint := r8.1
  let r9 := createShader drv SBfragShader.1 GL_FRAGMENT_SHADER r8.2.1 r8.2.2
  let fragment_shaderSB : GLuint := r9.1
  let r10 := glCreateProgram r9.2.1
  let programSB : GLuint := r10.1
  let gl11 := glAttachShader programSB vertex_shaderSB r10.2
  let gl12 := glAttachShader programSB fragment_shaderSB gl11
  let gl13 := glLinkProgram programSB gl12
  let r14 := glGetUniformLocation uniformLocation program "PV" gl13
  let uniPV : GLuint := toGLuint r14.1
  let r15 := glGetUniformLocation uniformLocation program "translation" r14.2
  let uniTranslation : GLuint := toGLuint r15.1
  let gl16 := glFrontFace GL_CCW r15.2
  let gl17 := glEnable GL_CULL_FACE gl16
  let gl18 := glPolygonMode GL_FRONT GL_FILL gl17
  let gl19 := glEnable GL_BLEND gl18
  let gl20 := glBlendFunc GL_SRC_ALPHA GL_ONE_MINUS_SRC_ALPHA gl19
  ({ g with vertex_shader := vertex_shader, fragment_shader := fragment_shader,
            program := program, vertex_shaderSB := vertex_shaderSB,
            fragment_shaderSB := fragment_shaderSB, programSB := programSB,
            uniPV := uniPV, uniTranslation := uniTranslation },
   gl20, r9.2.2)

/-- The statements of `main` between the end of the frame loop and `glfwTerminate`: the
whole clean-up of the program. -/
def mainCleanup {α : Type} (g : Globals α) (gl : GLState α) : GLState α :=
  let gl1 := glDeleteShader g.vertex_shader gl
  let gl2 := glDeleteShader g.fragment_shader gl1
  glDeleteProgram g.program gl2

/-! ## Vocabulary of the properties -/

section Vocabulary
variable {α : Type}

/-- Squared Euclidean length of a vector. -/
def Vec3.normSq [Field α] (v : Vec3 α) : α := v.x ^ 2 + v.y ^ 2 + v.z ^ 2

/-- The coordinate of a vector on axis 0 (x), 1 (y) or 2 (z). -/
def Vec3.coord (v : Vec3 α) : Fin 3 → α
  | 0 => v.x
  | 1 => v.y
  | 2 => v.z

/-- Difference of two vectors. -/
def Vec3.sub [Field α] (u v : Vec3 α) : Vec3 α := ⟨u.x - v.x, u.y - v.y, u.z - v.z⟩

/-- Cross product of two vectors. -/
def Vec3.cross [Field α] (u v : Vec3 α) : Vec3 α :=
  ⟨u.y * v.z - u.z * v.y, u.z * v.x - u.x * v.z, u.x * v.y - u.y * v.x⟩

/-- Dot product of two vectors. -/
def Vec3.dot [Field α] (u v : Vec3 α) : α := u.x * v.x + u.y * v.y + u.z * v.z

/-- The orientation of the triangle `(a, b, c)` as seen from the origin: the dot product of
`(b - a) x (c - a)` with `a`.  It is negative exactly when the triangle is counter-clockwise
(front-facing under `glFrontFace(GL_CCW)`) for a viewer at the origin. -/
def facing [Field α] (a b c : Vec3 α) : α := ((b.sub a).cross (c.sub a)).dot a

/-- The `k`-th face of the sky box mesh: vertices `6k .. 6k+5` of the vertex set. -/
def skyBoxFace [Field α] (k : Nat) : List (VertexFormat α) :=
  (skyBoxVertexSet.drop (6 * k)).take 6

/-- The orientation seen from the origin of the `t`-th triangle of the sky box mesh
(vertices `3t, 3t+1, 3t+2` of the vertex set); `none` when there is no such triangle. -/
def skyBoxFacing [Field α] (t : Nat) : Option α :=
  match (skyBoxVertexSet (α := α)).drop (3 * t) with
  | a :: b :: c :: _ => some (facing a.position b.position c.position)
  | _ => none

/-- The name `glCreateShader` gives the next shader object of the context. -/
def GLState.nextShaderName (gl : GLState α) : GLuint :=
  freshName gl.usedNames

/-- The text `createShader` hands to the compiler for the source text `sourceCode`: its
length goes through `const int shader_code_size`, so the text is handed over whole while it
has fewer than `2^31` characters; a length that wraps to a negative `int` makes OpenGL read
the text up to its first zero character, one that wraps to a smaller number makes it read
that many characters. -/
def sourceHandedOver (sourceCode : String) : String :=
  if toInt32 sourceCode.length < 0 then cstr sourceCode
  else cstrTake (toInt32 sourceCode.length).toNat sourceCode

/-- The text `createShader` writes before the information log. -/
def compileErrorBanner : String := "The shader failed to compile with the error:"

/-- The `double` value of `(t / 800.0f) * 2.0f - 1.0f` for the `double` `t`, each operation
rounded, overflow apart. -/
def cursorDouble (t : ℚ) : ℚ :=
  roundBinary 53 (-1022)
    (roundBinary 53 (-1022) (roundBinary 53 (-1022) (t / 800) * 2) - 1)

/-- The calls of a trace that release a shader or a program handle. -/
def releaseCalls (calls : List (GLCall α)) : List (GLCall α) :=
  calls.filter (fun c => match c with
    | GLCall.glDeleteShader _ => true
    | GLCall.glDeleteProgram _ => true
    | _ => false)

/-- The calls of a trace that draw. -/
def drawCalls (calls : List (GLCall α)) : List (GLCall α) :=
  calls.filter (fun c => match c with
    | GLCall.glDrawArrays _ _ _ => true
    | _ => false)

end Vocabulary

/-! ## Vocabulary of the sphere mesh properties -/

/-- The vertex the specification puts at the angles `(pitch, yaw)`, given in degrees:
position `x = r sin(pitch) cos(yaw)`, `y = r sin(pitch) sin(yaw)`, `z = r cos(pitch)`, with
the angles turned into radians by `PI / 180`, and normal equal to the position. -/
def sphericalVertex {α : Type} [Field α] (sin cos : α → α) (PI radius pitch yaw : α) :
    VertexFormat α :=
  { position := ⟨radius * sin (pitch * PI / 180) * cos (yaw * PI / 180),
                 radius * sin (pitch * PI / 180) * sin (yaw * PI / 180),
                 radius * cos (pitch * PI / 180)⟩
    normal := ⟨radius * sin (pitch * PI / 180) * cos (yaw * PI / 180),
               radius * sin (pitch * PI / 180) * sin (yaw * PI / 180),
               radius * cos (pitch * PI / 180)⟩ }

/-! ## Sample inputs -/

/-- An information log of 1024 characters, one more than fits the buffer `infolog[1024]`
together with its terminating zero. -/
def longLog : String := ⟨List.replicate 1024 'x'⟩


/-- A file of `2^32` characters. -/
def hugeFile : String := ⟨List.replicate 4294967296 'x'⟩

/-- The four shader files of the program, each with a short text as contents. -/
def sampleFiles : FileSystem := fun path =>
  if path = "VertexShader.glsl" then some ⟨"vertex shader text", true⟩
  else if path = "FragmentShader.glsl" then some ⟨"fragment shader text", true⟩
  else if path = "VertexShaderSkyBox.glsl" then some ⟨"sky box vertex shader text", true⟩
  else if path = "FragmentShaderSkyBox.glsl" then some ⟨"sky box fragment shader text", true⟩
  else none

/-- A file of four characters with a Windows line end: `a`, carriage return, line feed,
`b`. -/
def crlfFile : String := ⟨['a', Char.ofNat 13, Char.ofNat 10, 'b']⟩

/-- Globals before `init`: every handle is 0. -/
def zeroGlobals : Globals ℚ :=
  { program := 0, programSB := 0, vertex_shader := 0, fragment_shader := 0,
    vertex_shaderSB := 0, fragment_shaderSB := 0, camPosUniform := 0, skybox := 0,
    uniPV := 0, uniTranslation := 0, PV := mat4 1,
    skyBox := ⟨0, 0, 0⟩,
    sphere1 := { Translation := mat4 1, origin := ⟨0, 0, 0⟩, lightingtype := 0,
                 base := ⟨0, 0, 0⟩ } }

/-- An implementation that accepts every source and puts `in_position` at location 0 and
every other attribute at location 1. -/
def sampleDriver : Driver :=
  { compile := fun _ _ => (true, "")
    attribLocation := fun _ name => if name = "in_position" then 0 else 1 }

/-- An implementation that rejects every source with the log `log`. -/
def rejectingDriver (log : String) : Driver :=
  { compile := fun _ _ => (false, log)
    attribLocation := fun _ _ => 0 }

/-- The globals, the context and the output after `init` on a fresh context, with the four
shader files present and accepted and every uniform at location 0. -/
def sampleInit : Globals ℚ × GLState ℚ × List String :=
  init windowsTextMode sampleFiles sampleDriver (fun _ _ => 0) zeroGlobals (GLState.initial ℚ) []

/-- Globals as `init` leaves them when the context numbers shader and program objects
from 1: `program = 3`, `programSB = 6`. -/
def sampleGlobals : Globals ℚ :=
  { program := 3, programSB := 6, vertex_shader := 1, fragment_shader := 2,
    vertex_shaderSB := 4, fragment_shaderSB := 5, camPosUniform := 0, skybox := 1,
    uniPV := 0, uniTranslation := 1, PV := mat4 1,
    skyBox := ⟨0, 0, 0⟩,
    sphere1 := { Translation := mat4 1, origin := ⟨0, 0, 0⟩, lightingtype := 0,
                 base := ⟨0, 0, 0⟩ } }

/-! ## Loop lemmas -/

theorem forLoop_eq_iterate {σ : Type} (n : Nat) (body : σ → σ) (i : Nat) (s : σ) :
    forLoop n body i s = body^[n - i] s := by
  generalize h : n - i = k
  induction k generalizing i s with
  | zero =>
    rw [forLoop, if_neg (by omega)]
    rfl
  | succ k ih =>
    rw [forLoop, if_pos (by omega), ih (i + 1) (body s) (by omega)]
    rfl

theorem forLoop_zero_eq_iterate {σ : Type} (n : Nat) (body : σ → σ) (s : σ) :
    forLoop n body 0 s = body^[n] s := by
  rw [forLoop_eq_iterate, Nat.sub_zero]

theorem iterate_grows {σ β : Type} (vs : σ → List β) (f : σ → σ)
    (hf : ∀ s, vs s ⊆ vs (f s)) (n : Nat) (s : σ) : vs s ⊆ vs (f^[n] s) := by
  induction n generalizing s with
  | zero => simp
  | succ n ih =>
    rw [Function.iterate_succ_apply]
    exact (hf s).trans (ih _)

theorem iterate_step_grows {σ β : Type} (vs : σ → List β) (f : σ → σ)
    (hf : ∀ s, vs s ⊆ vs (f s)) (j n : Nat) (h : j < n) (s : σ) :
    vs (f (f^[j] s)) ⊆ vs (f^[n] s) := by
  obtain ⟨k, rfl⟩ : ∃ k, n = k + (j + 1) := ⟨n - (j + 1), by omega⟩
  rw [Function.iterate_add_apply, Function.iterate_succ_apply']
  exact iterate_grows vs f hf k _

/-! ## Sphere mesh: vertex count -/

section SphereCount
variable {α : Type} [Field α]

theorem sphereInnerBody_length (sin cos : α → α) (PI r pd yd : α) (s : SphereLoop α) :
    (sphereInnerBody sin cos PI r pd yd s).vertexSet.length = s.vertexSet.length + 6 := by
  simp [sphereInnerBody]

theorem sphereInner_iterate_length (sin cos : α → α) (PI r pd yd : α) (n : Nat)
    (s : SphereLoop α) :
    ((sphereInnerBody sin cos PI r pd yd)^[n] s).vertexSet.length
      = s.vertexSet.length + 6 * n := by
  induction n generalizing s with
  | zero => simp
  | succ n ih =>
    rw [Function.iterate_succ_apply, ih, sphereInnerBody_length]
    omega

theorem sphereOuterBody_length (sin cos : α → α) (PI r pd yd : α) (d : Nat)
    (s : SphereLoop α) :
    (sphereOuterBody sin cos PI r pd yd d s).vertexSet.length
      = s.vertexSet.length + 6 * d := by
  simp only [sphereOuterBody, forLoop_zero_eq_iterate]
  exact sphereInner_iterate_length sin cos PI r pd yd d s

theorem sphereOuter_iterate_length (sin cos : α → α) (PI r pd yd : α) (d n : Nat)
    (s : SphereLoop α) :
    ((sphereOuterBody sin cos PI r pd yd d)^[n] s).vertexSet.length
      = s.vertexSet.length + n * (6 * d) := by
  induction n generalizing s with
  | zero => simp
  | succ n ih =>
    rw [Function.iterate_succ_apply, ih, sphereOuterBody_length]
    ring

theorem sphereVertexSet_length (sin cos : α → α) (PI : α) :
    (sphereVertexSet sin cos PI).length = 9600 := by
  simp only [sphereVertexSet, sphereLoops, forLoop_zero_eq_iterate]
  rw [sphereOuter_iterate_length]
  simp [sphereLoopInit, DIVISIONS]

/-- C1: the vertex list built by `setupSphere` and handed to `initBuffer` has exactly
`DIVISIONS^2 * 6 = 9600` vertices, the count stored in `numberOfVertices` and uploaded whole
to the new buffer; the outer loop is 40 passes of its body, each of which is 40 passes of the
inner body, and every pass of the inner body appends exactly 6 vertices. -/
theorem setupSphere_vertex_count (drv : Driver) (sin cos : α → α) (PI : α)
    (g : Globals α) (gl : GLState α) :
    (sphereVertexSet sin cos PI).length = DIVISIONS ^ 2 * 6
    ∧ (sphereVertexSet sin cos PI).length = 9600
    ∧ (setupSphere drv sin cos PI g gl).1.sphere1.base.numberOfVertices = 9600
    ∧ (setupSphere drv sin cos PI g gl).2.bufferData.head?
        = some ((setupSphere drv sin cos PI g gl).1.sphere1.base.vbo, sphereVertexSet sin cos PI)
    ∧ sphereLoops sin cos PI
        = (sphereOuterBody sin cos PI sphereRadius pitchDelta yawDelta DIVISIONS)^[40]
            sphereLoopInit
    ∧ (∀ s : SphereLoop α,
        sphereOuterBody sin cos PI sphereRadius pitchDelta yawDelta DIVISIONS s
          = { (sphereInnerBody sin cos PI sphereRadius pitchDelta yawDelta)^[40] s with
              pitch := ((sphereInnerBody sin cos PI sphereRadius pitchDelta yawDelta)^[40] s).pitch
                + pitchDelta })
    ∧ ∀ s : SphereLoop α,
        (sphereInnerBody sin cos PI sphereRadius pitchDelta yawDelta s).vertexSet.length
          = s.vertexSet.length + 6 := by
  have hlen := sphereVertexSet_length sin cos PI
  refine ⟨by rw [hlen]; rfl, hlen, ?_, ?_, ?_, ?_, ?_⟩
  · simp [setupSphere, initBuffer, hlen]
  · simp [setupSphere, initBuffer, glBufferData, glBindBuffer, glBindVertexArray,
      glGenBuffers, glGenVertexArrays, glGetAttribLocation, glEnableVertexAttribArray,
      glVertexAttribPointer]
  · simp only [sphereLoops, forLoop_zero_eq_iterate]
    rfl
  · intro s
    simp only [sphereOuterBody, forLoop_zero_eq_iterate]
    rfl
  · intro s
    exact sphereInnerBody_length sin cos PI _ _ _ s

end SphereCount

/-! ## Sphere mesh: the corners lie on the sphere -/

theorem spherical_normSq (r a b : ℝ) :
    (Vec3.mk (r * Real.sin a * Real.cos b) (r * Real.sin a * Real.sin b)
      (r * Real.cos a)).normSq = r ^ 2 := by
  have ha := Real.sin_sq_add_cos_sq a
  have hb := Real.sin_sq_add_cos_sq b
  simp only [Vec3.normSq]
  linear_combination (r ^ 2 * Real.sin a ^ 2) * hb + r ^ 2 * ha

theorem sphereCell_normSq (PI r pd yd pitch yaw : ℝ) :
    (sphereCell Real.sin Real.cos PI r pd yd pitch yaw).p1.position.normSq = r ^ 2
    ∧ (sphereCell Real.sin Real.cos PI r pd yd pitch yaw).p2.position.normSq = r ^ 2
    ∧ (sphereCell Real.sin Real.cos PI r pd yd pitch yaw).p3.position.normSq = r ^ 2
    ∧ (sphereCell Real.sin Real.cos PI r pd yd pitch yaw).p4.position.normSq = r ^ 2 := by
  simp only [sphereCell]
  exact ⟨spherical_normSq _ _ _, spherical_normSq _ _ _, spherical_normSq _ _ _,
    spherical_normSq _ _ _⟩

section SphereMembership
variable {α : Type} [Field α]

theorem sphereInnerBody_subset (sin cos : α → α) (PI r pd yd : α) (s : SphereLoop α) :
    s.vertexSet ⊆ (sphereInnerBody sin cos PI r pd yd s).vertexSet := by
  simp [sphereInnerBody]

theorem sphereOuterBody_subset (sin cos : α → α) (PI r pd yd : α) (d : Nat)
    (s : SphereLoop α) :
    s.vertexSet ⊆ (sphereOuterBody sin cos PI r pd yd d s).vertexSet := by
  simp only [sphereOuterBody, forLoop_zero_eq_iterate]
  exact iterate_grows SphereLoop.vertexSet _ (sphereInnerBody_subset sin cos PI r pd yd) d s

/-- The vertices pushed in cell `(i, j)` are still in the vertex set when the loops end. -/
theorem sphereCellEntry_subset (sin cos : α → α) (PI : α) (i j : Nat)
    (hi : i < DIVISIONS) (hj : j < DIVISIONS) :
    (sphereInnerBody sin cos PI sphereRadius pitchDelta yawDelta
        (sphereCellEntry sin cos PI i j)).vertexSet
      ⊆ sphereVertexSet sin cos PI := by
  simp only [sphereVertexSet, sphereLoops, sphereCellEntry, forLoop_zero_eq_iterate]
  have hrow := iterate_step_grows SphereLoop.vertexSet _
    (sphereInnerBody_subset sin cos PI sphereRadius pitchDelta yawDelta) j DIVISIONS hj
    ((sphereOuterBody sin cos PI sphereRadius pitchDelta yawDelta DIVISIONS)^[i] sphereLoopInit)
  have hcol := iterate_step_grows SphereLoop.vertexSet _
    (sphereOuterBody_subset sin cos PI sphereRadius pitchDelta yawDelta DIVISIONS) i DIVISIONS hi
    sphereLoopInit
  refine (hrow.trans ?_).trans hcol
  simp only [sphereOuterBody, forLoop_zero_eq_iterate]
  exact fun _ h => h

theorem sphereCellAt_mem (sin cos : α → α) (PI : α) (i j : Nat)
    (hi : i < DIVISIONS) (hj : j < DIVISIONS) :
    (sphereCellAt sin cos PI i j).p1 ∈ sphereVertexSet sin cos PI
    ∧ (sphereCellAt sin cos PI i j).p2 ∈ sphereVertexSet sin cos PI
    ∧ (sphereCellAt sin cos PI i j).p3 ∈ sphereVertexSet sin cos PI
    ∧ (sphereCellAt sin cos PI i j).p4 ∈ sphereVertexSet sin cos PI := by
  have h := sphereCellEntry_subset sin cos PI i j hi hj
  refine ⟨h ?_, h ?_, h ?_, h ?_⟩ <;> simp [sphereInnerBody, sphereCellAt]

end SphereMembership

/-- C2: for every cell `(i, j)` with `i, j < 40` of `setupSphere`, with `sin` and `cos` the
real functions and the macro `PI` any real number, each of the corners `p1, p2, p3, p4`
computed in that cell is a vertex of the mesh and satisfies `x^2 + y^2 + z^2 = radius^2`,
where `radius = 0.25`. -/
theorem sphere_corners_on_sphere (PI : ℝ) (i j : Nat) (hi : i < 40) (hj : j < 40) :
    ((sphereCellAt Real.sin Real.cos PI i j).p1.position.normSq = (1 / 4 : ℝ) ^ 2
      ∧ (sphereCellAt Real.sin Real.cos PI i j).p2.position.normSq = (1 / 4 : ℝ) ^ 2
      ∧ (sphereCellAt Real.sin Real.cos PI i j).p3.position.normSq = (1 / 4 : ℝ) ^ 2
      ∧ (sphereCellAt Real.sin Real.cos PI i j).p4.position.normSq = (1 / 4 : ℝ) ^ 2)
    ∧ ((sphereCellAt Real.sin Real.cos PI i j).p1 ∈ sphereVertexSet Real.sin Real.cos PI
      ∧ (sphereCellAt Real.sin Real.cos PI i j).p2 ∈ sphereVertexSet Real.sin Real.cos PI
      ∧ (sphereCellAt Real.sin Real.cos PI i j).p3 ∈ sphereVertexSet Real.sin Real.cos PI
      ∧ (sphereCellAt Real.sin Real.cos PI i j).p4 ∈ sphereVertexSet Real.sin Real.cos PI) :=
  ⟨sphereCell_normSq PI sphereRadius pitchDelta yawDelta _ _,
    sphereCellAt_mem Real.sin Real.cos PI i j hi hj⟩

/-- Witness for C2: cell `(3, 7)` with the value `3.147` of the macro `PI`. -/
theorem sphere_corners_on_sphere_witness :
    (3 < 40 ∧ 7 < 40)
    ∧ (sphereCellAt Real.sin Real.cos (PI : ℝ) 3 7).p3.position.normSq = (1 / 4 : ℝ) ^ 2
    ∧ (sphereCellAt Real.sin Real.cos (PI : ℝ) 3 7).p3
        ∈ sphereVertexSet Real.sin Real.cos (PI : ℝ) :=
  ⟨⟨by decide, by decide⟩,
    (sphere_corners_on_sphere PI 3 7 (by decide) (by decide)).1.2.2.1,
    (sphere_corners_on_sphere PI 3 7 (by decide) (by decide)).2.2.2.1⟩

/-! ## Floating point rounding -/

theorem roundHalfEven_sub_le (q : ℚ) : |(roundHalfEven q : ℚ) - q| ≤ 1 / 2 := by
  have h0 := Int.floor_le q
  have h1 := Int.lt_floor_add_one q
  rw [abs_le]
  unfold roundHalfEven
  split_ifs <;> push_cast <;> constructor <;> linarith

theorem roundHalfEven_eq (q : ℚ) (n : ℤ) (h1 : (n : ℚ) - 1 / 2 < q) (h2 : q < n + 1 / 2) :
    roundHalfEven q = n := by
  have hlo : n - 1 ≤ ⌊q⌋ := Int.le_floor.mpr (by push_cast; linarith)
  have hhi : ⌊q⌋ < n + 1 := Int.floor_lt.mpr (by push_cast; linarith)
  have h0 := Int.floor_le q
  have h3 := Int.lt_floor_add_one q
  have hcases : ⌊q⌋ = n ∨ ⌊q⌋ = n - 1 := by omega
  unfold roundHalfEven
  rcases hcases with hf | hf
  · rw [hf] at h0 h3 ⊢
    rw [if_pos (by linarith)]
  · rw [hf] at h0 h3 ⊢
    push_cast at h0 h3 ⊢
    rw [if_neg (by linarith), if_pos (by linarith)]
    ring

theorem log_two_eq (q : ℚ) (e : ℤ) (hlo : (2 : ℚ) ^ e ≤ |q|) (hhi : |q| < (2 : ℚ) ^ (e + 1)) :
    Int.log 2 |q| = e := by
  have hpos : (0 : ℚ) < |q| := lt_of_lt_of_le (zpow_pos (by norm_num) e) hlo
  have h1 : e ≤ Int.log 2 |q| :=
    (Int.zpow_le_iff_le_log (by norm_num) hpos).mp (by exact_mod_cast hlo)
  have h2 : Int.log 2 |q| < e + 1 :=
    (Int.lt_zpow_iff_log_lt (by norm_num) hpos).mp (by exact_mod_cast hhi)
  omega

/-- The value of a rounding, from the binade of the number and the nearest multiple of the
spacing. -/
theorem roundBinary_eq (p : Nat) (emin e n : ℤ) (q : ℚ) (hq : q ≠ 0)
    (hlo : (2 : ℚ) ^ e ≤ |q|) (hhi : |q| < (2 : ℚ) ^ (e + 1)) (hemin : emin ≤ e)
    (h1 : (n : ℚ) - 1 / 2 < q / 2 ^ (e - ((p : Int) - 1)))
    (h2 : q / 2 ^ (e - ((p : Int) - 1)) < n + 1 / 2) :
    roundBinary p emin q = n * 2 ^ (e - ((p : Int) - 1)) := by
  have hlog := log_two_eq q e hlo hhi
  simp only [roundBinary, if_neg hq, hlog, max_eq_left hemin]
  rw [roundHalfEven_eq _ n h1 h2]

theorem roundBinary_zero (p : Nat) (emin : ℤ) : roundBinary p emin 0 = 0 := by
  simp [roundBinary]

/-- The error of a rounding: at most half the spacing, which is at most `|q| / 2^p` in the
normal range and `2^(emin - p)` below it. -/
theorem roundBinary_sub_le (p : Nat) (emin : ℤ) (q : ℚ) :
    |roundBinary p emin q - q| ≤ |q| * 2 ^ (-(p : Int)) + 2 ^ (emin - (p : Int)) := by
  by_cases hq : q = 0
  · subst hq
    rw [roundBinary_zero]
    simp only [sub_zero, abs_zero, zero_mul, zero_add]
    exact le_of_lt (zpow_pos (by norm_num) _)
  · have hpos : (0 : ℚ) < |q| := abs_pos.mpr hq
    have hu : (0 : ℚ) < 2 ^ (max (Int.log 2 |q|) emin - ((p : Int) - 1)) :=
      zpow_pos (by norm_num) _
    have herr := roundHalfEven_sub_le (q / 2 ^ (max (Int.log 2 |q|) emin - ((p : Int) - 1)))
    have hmul : |roundBinary p emin q - q|
        = |(roundHalfEven (q / 2 ^ (max (Int.log 2 |q|) emin - ((p : Int) - 1))) : ℚ)
            - q / 2 ^ (max (Int.log 2 |q|) emin - ((p : Int) - 1))|
          * 2 ^ (max (Int.log 2 |q|) emin - ((p : Int) - 1)) := by
      rw [← abs_of_pos hu, ← abs_mul, abs_of_pos hu]
      simp only [roundBinary, if_neg hq]
      congr 1
      field_simp
    have hhalf : |roundBinary p emin q - q|
        ≤ 2 ^ (max (Int.log 2 |q|) emin - (p : Int)) := by
      rw [hmul]
      have hsplit : (2 : ℚ) ^ (max (Int.log 2 |q|) emin - (p : Int))
          = 1 / 2 * 2 ^ (max (Int.log 2 |q|) emin - ((p : Int) - 1)) := by
        have : max (Int.log 2 |q|) emin - ((p : Int) - 1)
            = (max (Int.log 2 |q|) emin - (p : Int)) + 1 := by ring
        rw [this, zpow_add_one₀ (by norm_num)]
        ring
      rw [hsplit]
      exact mul_le_mul_of_nonneg_right herr (le_of_lt hu)
    have hlog : (2 : ℚ) ^ (Int.log 2 |q|) ≤ |q| := by
      have := Int.zpow_log_le_self (b := 2) (by norm_num) hpos
      exact_mod_cast this
    have hp : (0 : ℚ) < 2 ^ (-(p : Int)) := zpow_pos (by norm_num) _
    have hmin : (0 : ℚ) < 2 ^ (emin - (p : Int)) := zpow_pos (by norm_num) _
    rcases le_total (Int.log 2 |q|) emin with hle | hle
    · rw [max_eq_right hle] at hhalf
      have : 0 ≤ |q| * 2 ^ (-(p : Int)) := mul_nonneg (le_of_lt hpos) (le_of_lt hp)
      linarith
    · rw [max_eq_left hle] at hhalf
      have hsplit : (2 : ℚ) ^ (Int.log 2 |q| - (p : Int))
          = 2 ^ (Int.log 2 |q|) * 2 ^ (-(p : Int)) := by
        rw [sub_eq_add_neg, zpow_add₀ (by norm_num)]
      rw [hsplit] at hhalf
      have := mul_le_mul_of_nonneg_right hlog (le_of_lt hp)
      linarith

theorem toDouble_error (q : ℚ) :
    |roundBinary 53 (-1022) q - q| ≤ |q| / 2 ^ 53 + 1 / 2 ^ 1075 := by
  have h := roundBinary_sub_le 53 (-1022) q
  norm_num at h ⊢
  linarith

theorem toFloat_error (q : ℚ) :
    |roundBinary 24 (-126) q - q| ≤ |q| / 2 ^ 24 + 1 / 2 ^ 150 := by
  have h := roundBinary_sub_le 24 (-126) q
  norm_num at h ⊢
  linarith

/-! ## Cursor position to sphere translation -/

/-- For a cursor coordinate up to `2^64` in size no step of the evaluation overflows, and
the `float` stored differs from the exact `(t / 800) * 2 - 1` by at most
`(|t| / 400 + 1) / 2^23`; the same holds for the negated value. -/
theorem cursor_axis_bounds (t : ℚ) (ht : |t| ≤ 2 ^ 64) :
    |roundBinary 53 (-1022) (t / 800)| ≤ doubleMax
    ∧ |roundBinary 53 (-1022) (roundBinary 53 (-1022) (t / 800) * 2)| ≤ doubleMax
    ∧ |cursorDouble t| ≤ doubleMax
    ∧ |roundBinary 24 (-126) (cursorDouble t)| ≤ floatMax
    ∧ |roundBinary 24 (-126) (-cursorDouble t)| ≤ floatMax
    ∧ |roundBinary 24 (-126) (cursorDouble t) - ((t / 800) * 2 - 1)|
        ≤ (|t| / 400 + 1) / 2 ^ 23
    ∧ |roundBinary 24 (-126) (-cursorDouble t) - (-((t / 800) * 2 - 1))|
        ≤ (|t| / 400 + 1) / 2 ^ 23 := by
  have ha : |t / 800| = |t| / 800 := by
    rw [abs_div]
    norm_num
  have e1 := toDouble_error (t / 800)
  have e2 := toDouble_error (roundBinary 53 (-1022) (t / 800) * 2)
  have e3 := toDouble_error (roundBinary 53 (-1022) (roundBinary 53 (-1022) (t / 800) * 2) - 1)
  have e4 := toFloat_error (cursorDouble t)
  have e5 := toFloat_error (-cursorDouble t)
  rw [ha] at e1
  rw [abs_neg] at e5
  simp only [cursorDouble] at *
  generalize roundBinary 53 (-1022) (t / 800) = d1 at *
  generalize roundBinary 53 (-1022) (d1 * 2) = d2 at *
  generalize roundBinary 53 (-1022) (d2 - 1) = d3 at *
  generalize roundBinary 24 (-126) d3 = f at *
  generalize roundBinary 24 (-126) (-d3) = fneg at *
  have hd1 : |d1| ≤ |t| / 800 + (|t| / 800 / 2 ^ 53 + 1 / 2 ^ 1075) := by
    have := abs_sub_abs_le_abs_sub d1 (t / 800)
    rw [ha] at this
    linarith
  have h12 : |d1 * 2| = |d1| * 2 := by
    rw [abs_mul]
    norm_num
  rw [h12] at e2
  have hd2 : |d2| ≤ |d1| * 2 + (|d1| * 2 / 2 ^ 53 + 1 / 2 ^ 1075) := by
    have := abs_sub_abs_le_abs_sub d2 (d1 * 2)
    rw [h12] at this
    linarith
  have h21 : |d2 - 1| ≤ |d2| + 1 := by
    have := abs_sub d2 1
    simpa using this
  have hd3 : |d3| ≤ |d2 - 1| + (|d2 - 1| / 2 ^ 53 + 1 / 2 ^ 1075) := by
    have := abs_sub_abs_le_abs_sub d3 (d2 - 1)
    linarith
  have hf : |f| ≤ |d3| + (|d3| / 2 ^ 24 + 1 / 2 ^ 150) := by
    have := abs_sub_abs_le_abs_sub f d3
    linarith
  have hfneg : |fneg| ≤ |d3| + (|d3| / 2 ^ 24 + 1 / 2 ^ 150) := by
    have := abs_sub_abs_le_abs_sub fneg (-d3)
    rw [abs_neg] at this
    linarith
  have hsum : |f - ((t / 800) * 2 - 1)|
      ≤ |f - d3| + |d3 - (d2 - 1)| + |d2 - d1 * 2| + |d1 - t / 800| * 2 := by
    have s1 : f - ((t / 800) * 2 - 1)
        = (f - d3) + (d3 - (d2 - 1)) + (d2 - d1 * 2) + (d1 - t / 800) * 2 := by ring
    rw [s1]
    have t1 := abs_add_three (f - d3) (d3 - (d2 - 1)) (d2 - d1 * 2)
    have t2 := abs_add (f - d3 + (d3 - (d2 - 1)) + (d2 - d1 * 2)) ((d1 - t / 800) * 2)
    have t3 : |(d1 - t / 800) * 2| = |d1 - t / 800| * 2 := by
      rw [abs_mul]
      norm_num
    linarith
  have hsumneg : |fneg - (-((t / 800) * 2 - 1))|
      ≤ |fneg - -d3| + |d3 - (d2 - 1)| + |d2 - d1 * 2| + |d1 - t / 800| * 2 := by
    have s1 : fneg - (-((t / 800) * 2 - 1))
        = (fneg - -d3) + (-(d3 - (d2 - 1))) + (-(d2 - d1 * 2)) + (-(d1 - t / 800)) * 2 := by
      ring
    rw [s1]
    have t1 := abs_add_three (fneg - -d3) (-(d3 - (d2 - 1))) (-(d2 - d1 * 2))
    have t2 := abs_add (fneg - -d3 + -(d3 - (d2 - 1)) + -(d2 - d1 * 2))
      (-(d1 - t / 800) * 2)
    have t3 : |(-(d1 - t / 800)) * 2| = |d1 - t / 800| * 2 := by
      rw [abs_mul, abs_neg]
      norm_num
    rw [abs_neg] at t1
    rw [abs_neg] at t1
    linarith
  simp only [doubleMax, floatMax]
  norm_num at *
  have n0 : (0 : ℚ) ≤ |t| := abs_nonneg _
  have n1 : (0 : ℚ) ≤ |d1| := abs_nonneg _
  have n2 : (0 : ℚ) ≤ |d2| := abs_nonneg _
  have n3 : (0 : ℚ) ≤ |d3| := abs_nonneg _
  have n4 : (0 : ℚ) ≤ |d2 - 1| := abs_nonneg _
  refine ⟨?_, ?_, ?_, ?_, ?_, ?_, ?_⟩ <;> linarith

theorem double_one : roundBinary 53 (-1022) 1 = 1 := by
  rw [roundBinary_eq 53 (-1022) 0 4503599627370496 1 (by norm_num) (by norm_num)
    (by norm_num) (by norm_num) (by norm_num) (by norm_num)]
  norm_num

theorem double_neg_one : roundBinary 53 (-1022) (-1) = -1 := by
  rw [roundBinary_eq 53 (-1022) 0 (-4503599627370496) (-1) (by norm_num) (by norm_num)
    (by norm_num) (by norm_num) (by norm_num) (by norm_num)]
  norm_num

theorem double_two : roundBinary 53 (-1022) 2 = 2 := by
  rw [roundBinary_eq 53 (-1022) 1 4503599627370496 2 (by norm_num) (by norm_num)
    (by norm_num) (by norm_num) (by norm_num) (by norm_num)]
  norm_num

theorem double_half : roundBinary 53 (-1022) (1 / 2) = 1 / 2 := by
  rw [roundBinary_eq 53 (-1022) (-1) 4503599627370496 (1 / 2) (by norm_num)
    (by norm_num [abs_of_pos]) (by norm_num [abs_of_pos]) (by norm_num) (by norm_num)
    (by norm_num)]
  norm_num

theorem float_one : roundBinary 24 (-126) 1 = 1 := by
  rw [roundBinary_eq 24 (-126) 0 8388608 1 (by norm_num) (by norm_num)
    (by norm_num) (by norm_num) (by norm_num) (by norm_num)]
  norm_num

theorem float_neg_one : roundBinary 24 (-126) (-1) = -1 := by
  rw [roundBinary_eq 24 (-126) 0 (-8388608) (-1) (by norm_num) (by norm_num)
    (by norm_num) (by norm_num) (by norm_num) (by norm_num)]
  norm_num

/-- The `double` nearest to `1/800`. -/
theorem double_one_over_800 :
    roundBinary 53 (-1022) (1 / 800) = 5764607523034235 / 2 ^ 62 := by
  rw [roundBinary_eq 53 (-1022) (-10) 5764607523034235 (1 / 800) (by norm_num)
    (by norm_num [abs_of_pos]) (by norm_num [abs_of_pos]) (by norm_num) (by norm_num)
    (by norm_num)]
  norm_num

theorem double_one_over_400 :
    roundBinary 53 (-1022) (5764607523034235 / 2 ^ 62 * 2) = 5764607523034235 / 2 ^ 61 := by
  rw [roundBinary_eq 53 (-1022) (-9) 5764607523034235 (5764607523034235 / 2 ^ 62 * 2)
    (by norm_num) (by norm_num [abs_of_pos]) (by norm_num [abs_of_pos]) (by norm_num)
    (by norm_num) (by norm_num)]
  norm_num

theorem double_one_over_400_sub_one :
    roundBinary 53 (-1022) (5764607523034235 / 2 ^ 61 - 1) = -8984681256604140 / 2 ^ 53 := by
  rw [roundBinary_eq 53 (-1022) (-1) (-8984681256604140) (5764607523034235 / 2 ^ 61 - 1)
    (by norm_num) (by norm_num [abs_of_neg]) (by norm_num [abs_of_neg]) (by norm_num)
    (by norm_num) (by norm_num)]
  norm_num

theorem float_of_cursor_one :
    roundBinary 24 (-126) (-8984681256604140 / 2 ^ 53) = -16735273 / 16777216 := by
  rw [roundBinary_eq 24 (-126) (-1) (-16735273) (-8984681256604140 / 2 ^ 53)
    (by norm_num) (by norm_num [abs_of_neg]) (by norm_num [abs_of_neg]) (by norm_num)
    (by norm_num) (by norm_num)]
  norm_num

theorem cursorDouble_zero : cursorDouble 0 = -1 := by
  simp only [cursorDouble, zero_div, roundBinary_zero, zero_mul, zero_sub, double_neg_one]

theorem cursorDouble_400 : cursorDouble 400 = 0 := by
  have h : (400 : ℚ) / 800 = 1 / 2 := by norm_num
  have h2 : (1 : ℚ) / 2 * 2 = 1 := by norm_num
  simp only [cursorDouble, h, double_half, h2, double_one, sub_self, roundBinary_zero]

theorem cursorDouble_800 : cursorDouble 800 = 1 := by
  have h : (800 : ℚ) / 800 = 1 := by norm_num
  have h2 : (2 : ℚ) - 1 = 1 := by norm_num
  simp only [cursorDouble, h, double_one, one_mul, double_two, h2]

theorem cursorDouble_one : cursorDouble 1 = -8984681256604140 / 2 ^ 53 := by
  simp only [cursorDouble, double_one_over_800, double_one_over_400,
    double_one_over_400_sub_one]

/-- Within `2^64` on both axes `update` delivers globals, with the origin and the
translation as computed in `float`. -/
theorem update_eq (x y : ℚ) (g : Globals ℚ) (hx : |x| ≤ 2 ^ 64) (hy : |y| ≤ 2 ^ 64) :
    update x y g
      = some { g with sphere1 :=
          { g.sphere1 with
            origin := ⟨roundBinary 24 (-126) (cursorDouble x),
                       roundBinary 24 (-126) (-cursorDouble y), g.sphere1.origin.z⟩
            Translation := translate (mat4 1)
              ⟨roundBinary 24 (-126) (cursorDouble x),
               roundBinary 24 (-126) (-cursorDouble y), g.sphere1.origin.z⟩ } } := by
  obtain ⟨a1, a2, a3, a4, _, _, _⟩ := cursor_axis_bounds x hx
  obtain ⟨b1, b2, b3, _, b5, _, _⟩ := cursor_axis_bounds y hy
  simp only [cursorDouble] at a3 a4 b3 b5
  simp only [update, toDouble, toFloat, cursorDouble, if_pos a1, if_pos a2, if_pos a3,
    if_pos a4, if_pos b1, if_pos b2, if_pos b3, if_pos b5, Option.some_bind]

theorem toDouble_bind_some {β : Type} (q : ℚ) (f : ℚ → Option β) (r : β)
    (h : (toDouble q).bind f = some r) : f (roundBinary 53 (-1022) q) = some r := by
  unfold toDouble at h
  split_ifs at h
  · exact h
  · exact absurd h (by simp)

theorem toFloat_bind_some {β : Type} (q : ℚ) (f : ℚ → Option β) (r : β)
    (h : (toFloat q).bind f = some r) : f (roundBinary 24 (-126) q) = some r := by
  unfold toFloat at h
  split_ifs at h
  · exact h
  · exact absurd h (by simp)

/-- Whenever `update` delivers globals, they are the old ones with the origin and the
translation as computed in `float`. -/
theorem update_some (x y : ℚ) (g g2 : Globals ℚ) (h : update x y g = some g2) :
    g2 = { g with sphere1 :=
          { g.sphere1 with
            origin := ⟨roundBinary 24 (-126) (cursorDouble x),
                       roundBinary 24 (-126) (-cursorDouble y), g.sphere1.origin.z⟩
            Translation := translate (mat4 1)
              ⟨roundBinary 24 (-126) (cursorDouble x),
               roundBinary 24 (-126) (-cursorDouble y), g.sphere1.origin.z⟩ } } := by
  unfold update at h
  have h1 := toDouble_bind_some _ _ _ h
  have h2 := toDouble_bind_some _ _ _ h1
  have h3 := toDouble_bind_some _ _ _ h2
  have h4 := toFloat_bind_some _ _ _ h3
  have h5 := toDouble_bind_some _ _ _ h4
  have h6 := toDouble_bind_some _ _ _ h5
  have h7 := toDouble_bind_some _ _ _ h6
  have h8 := toFloat_bind_some _ _ _ h7
  exact (Option.some.inj h8).symm

/-- C3 fails as stated: with the cursor at pixel (1, 0), `update` stores
`-16735273/16777216` in `sphere1.origin.x`, the `float` nearest to the `double` value of
`(1/800)*2 - 1`, not `(1/800)*2 - 1 = -399/400` itself. -/
theorem update_rounding_counterexample :
    (update 1 0 sampleGlobals).map (fun g => g.sphere1.origin.x)
      = some (-16735273 / 16777216)
    ∧ (-16735273 / 16777216 : ℚ) ≠ (1 / 800) * 2 - 1
    ∧ ((1 : ℚ) / 800) * 2 - 1 = -399 / 400 := by
  refine ⟨?_, by norm_num, by norm_num⟩
  rw [update_eq 1 0 sampleGlobals (by norm_num) (by norm_num)]
  simp only [Option.map_some', cursorDouble_one, float_of_cursor_one]

/-- C3, amended: for every cursor position `(x, y)` (two `double` values up to `2^64` in
size), `update` sets `sphere1.origin.x` to the `float` nearest to the `double` value of
`(x/800)*2 - 1` and `sphere1.origin.y` to the `float` nearest to the `double` value of
`-((y/800)*2 - 1)`, each within `(|coordinate|/400 + 1) / 2^23` of the exact value; it
leaves `sphere1.origin.z` as it was (0 after `setupSphere`) and sets `sphere1.Translation`
to the translation by the new origin (the identity matrix with the origin as last column).
At the pixels (0,0), (800,800) and (400,400) the values are exact: (-1, 1), (1, -1) and
(0, 0). -/
theorem update_cursor_mapping (x y : ℚ) (g : Globals ℚ) (drv : Driver) (sin cos : ℚ → ℚ)
    (PI : ℚ) (gl : GLState ℚ) (hx : |x| ≤ 2 ^ 64) (hy : |y| ≤ 2 ^ 64) :
    (∃ g2 : Globals ℚ, update x y g = some g2
      ∧ g2.sphere1.origin.x = roundBinary 24 (-126) (cursorDouble x)
      ∧ g2.sphere1.origin.y = roundBinary 24 (-126) (-cursorDouble y)
      ∧ g2.sphere1.origin.z = g.sphere1.origin.z
      ∧ |g2.sphere1.origin.x - ((x / 800) * 2 - 1)| ≤ (|x| / 400 + 1) / 2 ^ 23
      ∧ |g2.sphere1.origin.y - (-((y / 800) * 2 - 1))| ≤ (|y| / 400 + 1) / 2 ^ 23
      ∧ g2.sphere1.Translation = translate (mat4 1) g2.sphere1.origin
      ∧ g2.sphere1.Translation
          = { c0 := ⟨1, 0, 0, 0⟩, c1 := ⟨0, 1, 0, 0⟩, c2 := ⟨0, 0, 1, 0⟩,
              c3 := ⟨g2.sphere1.origin.x, g2.sphere1.origin.y, g.sphere1.origin.z, 1⟩ })
    ∧ (setupSphere drv sin cos PI g gl).1.sphere1.origin.z = 0
    ∧ (update 0 0 (setupSphere drv sin cos PI g gl).1).map (fun g2 => g2.sphere1.origin)
        = some ⟨-1, 1, 0⟩
    ∧ (update 800 800 (setupSphere drv sin cos PI g gl).1).map (fun g2 => g2.sphere1.origin)
        = some ⟨1, -1, 0⟩
    ∧ (update 400 400 (setupSphere drv sin cos PI g gl).1).map (fun g2 => g2.sphere1.origin)
        = some ⟨0, 0, 0⟩ := by
  obtain ⟨_, _, _, _, _, ex, _⟩ := cursor_axis_bounds x hx
  obtain ⟨_, _, _, _, _, _, ey⟩ := cursor_axis_bounds y hy
  refine ⟨⟨_, update_eq x y g hx hy, rfl, rfl, rfl, ex, ey, rfl, ?_⟩, rfl, ?_, ?_, ?_⟩
  · simp [translate, mat4, Vec4.smul, Vec4.add]
  · rw [update_eq 0 0 _ (by norm_num) (by norm_num)]
    simp only [Option.map_some', cursorDouble_zero, float_neg_one, neg_neg, float_one]
    rfl
  · rw [update_eq 800 800 _ (by norm_num) (by norm_num)]
    simp only [Option.map_some', cursorDouble_800, float_neg_one, float_one]
    rfl
  · rw [update_eq 400 400 _ (by norm_num) (by norm_num)]
    simp only [Option.map_some', cursorDouble_400, neg_zero, roundBinary_zero]
    rfl

/-- Witness for C3: the cursor at pixel (200, 600) on the sample globals. -/
theorem update_cursor_mapping_witness :
    (|(200 : ℚ)| ≤ 2 ^ 64 ∧ |(600 : ℚ)| ≤ 2 ^ 64)
    ∧ ∃ g2 : Globals ℚ, update 200 600 sampleGlobals = some g2
        ∧ |g2.sphere1.origin.x - (((200 : ℚ) / 800) * 2 - 1)| ≤ (|(200 : ℚ)| / 400 + 1) / 2 ^ 23
        ∧ g2.sphere1.origin.z = sampleGlobals.sphere1.origin.z := by
  have hx : |(200 : ℚ)| ≤ 2 ^ 64 := by norm_num
  have hy : |(600 : ℚ)| ≤ 2 ^ 64 := by norm_num
  obtain ⟨g2, h, _, _, hz, hex, _⟩ :=
    (update_cursor_mapping 200 600 sampleGlobals sampleDriver id id PI (GLState.initial ℚ)
      hx hy).1
  exact ⟨⟨hx, hy⟩, g2, h, hex, hz⟩

/-! ## Sky box mesh -/

section SkyBox
variable {α : Type} [LinearOrderedField α]

/-- C4: the vertex list built by `setupSkyBox` and handed to `initBuffer` has exactly 36
vertices (the count stored in `skyBox.numberOfVertices` and uploaded whole to the new
buffer), and every one of them has the zero vector as its normal. -/
theorem setupSkyBox_vertex_count (drv : Driver) (g : Globals α) (gl : GLState α) :
    (skyBoxVertexSet (α := α)).length = 36
    ∧ (∀ v ∈ skyBoxVertexSet (α := α), v.normal = ⟨0, 0, 0⟩)
    ∧ (setupSkyBox drv g gl).1.skyBox.numberOfVertices = 36
    ∧ (setupSkyBox drv g gl).2.bufferData.head?
        = some ((setupSkyBox drv g gl).1.skyBox.vbo, skyBoxVertexSet) := by
  refine ⟨rfl, ?_, ?_, ?_⟩
  · intro v hv
    simp only [skyBoxVertexSet, List.mem_cons, List.mem_singleton, List.not_mem_nil,
      or_false] at hv
    rcases hv with h | h | h | h | h | h | h | h | h | h | h | h | h | h | h | h | h | h
      | h | h | h | h | h | h | h | h | h | h | h | h | h | h | h | h | h | h <;>
      (subst h; rfl)
  · simp [setupSkyBox, initBuffer, skyBoxVertexSet]
  · simp [setupSkyBox, initBuffer, glBufferData, glBindBuffer, glBindVertexArray,
      glGenBuffers, glGenVertexArrays, glGetAttribLocation, glEnableVertexAttribArray,
      glVertexAttribPointer, skyBoxVertexSet]

/-- C5: each of the six consecutive groups of 6 vertices of the `setupSkyBox` mesh has one
axis on which all 6 positions have the same coordinate, which is -1 or 1, while on each of
the other two axes both values -1 and 1 occur; every coordinate of every vertex is -1 or 1. -/
theorem skyBox_faces_axis_aligned :
    (∀ k : Fin 6, ∃ a : Fin 3, ∃ c : α, (c = -1 ∨ c = 1)
        ∧ (∀ v ∈ skyBoxFace (α := α) k, v.position.coord a = c)
        ∧ ∀ b : Fin 3, b ≠ a →
            (∃ v ∈ skyBoxFace (α := α) k, v.position.coord b = -1)
            ∧ (∃ v ∈ skyBoxFace (α := α) k, v.position.coord b = 1))
    ∧ (∀ v ∈ skyBoxVertexSet (α := α), ∀ a : Fin 3,
        v.position.coord a = -1 ∨ v.position.coord a = 1)
    ∧ (∀ k : Fin 6, (skyBoxFace (α := α) k).length = 6)
    ∧ ((List.range 6).map (fun k => skyBoxFace (α := α) k)).flatten = skyBoxVertexSet := by
  refine ⟨?_, ?_, ?_, ?_⟩
  · intro k
    fin_cases k
    · refine ⟨2, -1, Or.inl rfl, ?_, ?_⟩
      · simp [skyBoxFace, skyBoxVertexSet, Vec3.coord]
      · intro b hb
        fin_cases b <;> simp [skyBoxFace, skyBoxVertexSet, Vec3.coord] at hb ⊢
    · refine ⟨2, -1, Or.inl rfl, ?_, ?_⟩
      · simp [skyBoxFace, skyBoxVertexSet, Vec3.coord]
      · intro b hb
        fin_cases b <;> simp [skyBoxFace, skyBoxVertexSet, Vec3.coord] at hb ⊢
    · refine ⟨0, 1, Or.inr rfl, ?_, ?_⟩
      · simp [skyBoxFace, skyBoxVertexSet, Vec3.coord]
      · intro b hb
        fin_cases b <;> simp [skyBoxFace, skyBoxVertexSet, Vec3.coord] at hb ⊢
    · refine ⟨0, -1, Or.inl rfl, ?_, ?_⟩
      · simp [skyBoxFace, skyBoxVertexSet, Vec3.coord]
      · intro b hb
        fin_cases b <;> simp [skyBoxFace, skyBoxVertexSet, Vec3.coord] at hb ⊢
    · refine ⟨1, 1, Or.inr rfl, ?_, ?_⟩
      · simp [skyBoxFace, skyBoxVertexSet, Vec3.coord]
      · intro b hb
        fin_cases b <;> simp [skyBoxFace, skyBoxVertexSet, Vec3.coord] at hb ⊢
    · refine ⟨1, -1, Or.inl rfl, ?_, ?_⟩
      · simp [skyBoxFace, skyBoxVertexSet, Vec3.coord]
      · intro b hb
        fin_cases b <;> simp [skyBoxFace, skyBoxVertexSet, Vec3.coord] at hb ⊢
  · intro v hv a
    simp only [skyBoxVertexSet, List.mem_cons, List.mem_singleton, List.not_mem_nil,
      or_false] at hv
    rcases hv with h | h | h | h | h | h | h | h | h | h | h | h | h | h | h | h | h | h
      | h | h | h | h | h | h | h | h | h | h | h | h | h | h | h | h | h | h <;>
      (subst h; fin_cases a <;> simp [Vec3.coord])
  · intro k
    fin_cases k <;> rfl
  · rfl

/-- C6: the two triangles of the second face of the `setupSkyBox` mesh (vertices 6 .. 11,
under the comment `xy plane (-z axis)`, all at `z = -1`) are wound clockwise as seen from
inside the cube: `(b - a) x (c - a)` has dot product `4 > 0` with `a`, so they are
back-facing from the origin.  The other ten triangles have dot product `-4 < 0`. -/
theorem skyBox_second_face_winding :
    ((skyBoxVertexSet (α := α)).drop 6).take 3
        = [⟨⟨1, 1, -1⟩, ⟨0, 0, 0⟩⟩, ⟨⟨-1, -1, -1⟩, ⟨0, 0, 0⟩⟩, ⟨⟨-1, 1, -1⟩, ⟨0, 0, 0⟩⟩]
    ∧ facing (α := α) ⟨1, 1, -1⟩ ⟨-1, -1, -1⟩ ⟨-1, 1, -1⟩ = 4
    ∧ ¬ (facing (α := α) ⟨1, 1, -1⟩ ⟨-1, -1, -1⟩ ⟨-1, 1, -1⟩ < 0)
    ∧ (List.range 12).map (fun t => skyBoxFacing (α := α) t)
        = [some (-4), some (-4), some 4, some 4, some (-4), some (-4),
           some (-4), some (-4), some (-4), some (-4), some (-4), some (-4)] := by
  have h4 : facing (α := α) ⟨1, 1, -1⟩ ⟨-1, -1, -1⟩ ⟨-1, 1, -1⟩ = 4 := by
    simp only [facing, Vec3.sub, Vec3.cross, Vec3.dot]
    norm_num
  refine ⟨rfl, h4, ?_, ?_⟩
  · rw [h4]
    norm_num
  · simp only [List.range, List.range.loop, List.map, skyBoxFacing, skyBoxVertexSet, List.drop,
      facing, Vec3.sub, Vec3.cross, Vec3.dot, Vec3.splat]
    norm_num

end SkyBox

/-! ## Buffer set-up (`initBuffer`) -/

theorem lt_freshName (used : List GLuint) : ∀ x ∈ used, x < freshName used := by
  induction used with
  | nil => simp
  | cons a t ih =>
    intro x hx
    simp only [freshName, List.foldr_cons] at ih ⊢
    rcases List.mem_cons.mp hx with h | h
    · subst h
      exact Nat.lt_succ_of_le (Nat.le_max_left _ _)
    · exact Nat.lt_succ_of_le
        (Nat.le_trans (Nat.le_of_lt_succ (ih x h)) (Nat.le_max_right _ _))

theorem freshName_not_mem (used : List GLuint) : freshName used ∉ used :=
  fun h => Nat.lt_irrefl _ (lt_freshName used _ h)

theorem freshName_ne_zero (used : List GLuint) : freshName used ≠ 0 := by
  simp [freshName]

/-- C7: for every call `initBuffer(numVertices, vertices, programID)` the trace of OpenGL
calls is the one listed: the locations of `in_position` and `in_normal` are asked of the
global `program`, whatever `programID` is (the result does not depend on `programID`), and
the two attributes are declared as 3 floats at byte offset 0 and 3 floats at byte offset 12
with stride 24.  For the sky box (`program = 3`, `programID = programSB = 6`) the locations
are asked of program 3 and never of program 6. -/
theorem initBuffer_attrib_program {α : Type} [Field α] (drv : Driver) (program : GLuint)
    (self : stuff_for_drawing) (numVertices : Int) (vertices : List (VertexFormat α))
    (programID : GLuint) (gl : GLState α) :
    (initBuffer drv program self numVertices vertices programID gl).2.calls
      = gl.calls ++
        [GLCall.glGenVertexArrays 1 (freshName gl.vertexArrays),
         GLCall.glGenBuffers 1 (freshName gl.buffers),
         GLCall.glBindVertexArray (freshName gl.vertexArrays),
         GLCall.glBindBuffer GL_ARRAY_BUFFER (freshName gl.buffers),
         GLCall.glBufferData GL_ARRAY_BUFFER (24 * numVertices)
           (vertices.take numVertices.toNat) GL_STATIC_DRAW,
         GLCall.glGetAttribLocation program "in_position",
         GLCall.glEnableVertexAttribArray (toGLuint (drv.attribLocation program "in_position")),
         GLCall.glGetAttribLocation program "in_position",
         GLCall.glVertexAttribPointer (toGLuint (drv.attribLocation program "in_position"))
           3 GL_FLOAT 0 24 0,
         GLCall.glGetAttribLocation program "in_normal",
         GLCall.glEnableVertexAttribArray (toGLuint (drv.attribLocation program "in_normal")),
         GLCall.glGetAttribLocation program "in_normal",
         GLCall.glVertexAttribPointer (toGLuint (drv.attribLocation program "in_normal"))
           3 GL_FLOAT 0 24 12,
         GLCall.glBindVertexArray 0]
    ∧ (∀ programID2 : GLuint,
        initBuffer drv program self numVertices vertices programID2 gl
          = initBuffer drv program self numVertices vertices programID gl)
    ∧ sampleGlobals.program = 3 ∧ sampleGlobals.programSB = 6
    ∧ GLCall.glGetAttribLocation 3 "in_position"
        ∈ (setupSkyBox sampleDriver sampleGlobals (GLState.initial ℚ)).2.calls
    ∧ GLCall.glGetAttribLocation 3 "in_normal"
        ∈ (setupSkyBox sampleDriver sampleGlobals (GLState.initial ℚ)).2.calls
    ∧ (∀ name : String, GLCall.glGetAttribLocation 6 name
        ∉ (setupSkyBox sampleDriver sampleGlobals (GLState.initial ℚ)).2.calls) := by
  refine ⟨?_, fun _ => rfl, rfl, rfl, ?_, ?_, ?_⟩
  · simp [initBuffer, glBufferData, glBindBuffer, glBindVertexArray, glGenBuffers,
      glGenVertexArrays, glGetAttribLocation, glEnableVertexAttribArray, glVertexAttribPointer,
      sizeofVertexFormat, sizeofFloat, GL_FALSE]
  · simp [setupSkyBox, initBuffer, glBufferData, glBindBuffer, glBindVertexArray, glGenBuffers,
      glGenVertexArrays, glGetAttribLocation, glEnableVertexAttribArray, glVertexAttribPointer,
      sampleGlobals, GLState.initial]
  · simp [setupSkyBox, initBuffer, glBufferData, glBindBuffer, glBindVertexArray, glGenBuffers,
      glGenVertexArrays, glGetAttribLocation, glEnableVertexAttribArray, glVertexAttribPointer,
      sampleGlobals, GLState.initial]
  · intro name
    simp [setupSkyBox, initBuffer, glBufferData, glBindBuffer, glBindVertexArray, glGenBuffers,
      glGenVertexArrays, glGetAttribLocation, glEnableVertexAttribArray, glVertexAttribPointer,
      sampleGlobals, GLState.initial]

/-- C8 fails as stated: after `initBuffer` on a fresh context (the sky box call) the vertex
array binding is 0 but the `GL_ARRAY_BUFFER` binding is buffer 1, not 0. -/
theorem initBuffer_bind_state_counterexample :
    (initBuffer sampleDriver 3 ⟨0, 0, 0⟩ 36 (skyBoxVertexSet (α := ℚ)) 6
        (GLState.initial ℚ)).2.boundVertexArray = 0
    ∧ (initBuffer sampleDriver 3 ⟨0, 0, 0⟩ 36 (skyBoxVertexSet (α := ℚ)) 6
        (GLState.initial ℚ)).2.boundArrayBuffer = 1
    ∧ ¬ ((initBuffer sampleDriver 3 ⟨0, 0, 0⟩ 36 (skyBoxVertexSet (α := ℚ)) 6
          (GLState.initial ℚ)).2.boundVertexArray = 0
        ∧ (initBuffer sampleDriver 3 ⟨0, 0, 0⟩ 36 (skyBoxVertexSet (α := ℚ)) 6
          (GLState.initial ℚ)).2.boundArrayBuffer = 0) := by
  simp [initBuffer, glBufferData, glBindBuffer, glBindVertexArray, glGenBuffers,
    glGenVertexArrays, glGetAttribLocation, glEnableVertexAttribArray, glVertexAttribPointer,
    GLState.initial, freshName]

/-- C8, amended: when `initBuffer` returns, the vertex array binding is 0 and the
`GL_ARRAY_BUFFER` binding is the buffer the call generated (`vbo`), which is not 0 and was
not a buffer of the context before the call; this holds for every input. -/
theorem initBuffer_bind_state {α : Type} [Field α] (drv : Driver) (program : GLuint)
    (self : stuff_for_drawing) (numVertices : Int) (vertices : List (VertexFormat α))
    (programID : GLuint) (gl : GLState α) :
    (initBuffer drv program self numVertices vertices programID gl).2.boundVertexArray = 0
    ∧ (initBuffer drv program self numVertices vertices programID gl).2.boundArrayBuffer
        = (initBuffer drv program self numVertices vertices programID gl).1.vbo
    ∧ (initBuffer drv program self numVertices vertices programID gl).1.vbo ≠ 0
    ∧ (initBuffer drv program self numVertices vertices programID gl).1.vbo ∉ gl.buffers
    ∧ (initBuffer drv program self numVertices vertices programID gl).2.boundArrayBuffer ≠ 0 := by
  have hvbo : (initBuffer drv program self numVertices vertices programID gl).1.vbo
      = freshName gl.buffers := rfl
  have hbound : (initBuffer drv program self numVertices vertices programID gl).2.boundArrayBuffer
      = freshName gl.buffers := by
    simp [initBuffer, glBufferData, glBindBuffer, glBindVertexArray, glGenBuffers,
      glGenVertexArrays, glGetAttribLocation, glEnableVertexAttribArray, glVertexAttribPointer]
  refine ⟨rfl, ?_, ?_, ?_, ?_⟩
  · rw [hbound, hvbo]
  · rw [hvbo]
    exact freshName_ne_zero _
  · rw [hvbo]
    exact freshName_not_mem _
  · rw [hbound]
    exact freshName_ne_zero _

/-! ## One frame (`renderScene`) -/

/-- C9: one call of `renderScene` issues exactly two draw calls, in this order: the sky box
(program `programSB`, vertex array `skyBox.vao`, `skyBox.numberOfVertices` vertices) with
depth writes disabled, then the sphere (program `program`, vertex array `sphere1.base.vao`,
`sphere1.base.numberOfVertices` vertices) with depth writes enabled; it leaves depth writes
enabled and vertex array 0 bound. -/
theorem renderScene_draws {α : Type} [Field α] (g : Globals α) (gl : GLState α) :
    (renderScene g gl).draws
      = gl.draws ++
        [{ program := g.programSB, vao := g.skyBox.vao, depthMask := false,
           mode := GL_TRIANGLES, first := 0, count := g.skyBox.numberOfVertices },
         { program := g.program, vao := g.sphere1.base.vao, depthMask := true,
           mode := GL_TRIANGLES, first := 0, count := g.sphere1.base.numberOfVertices }]
    ∧ drawCalls (renderScene g gl).calls
      = drawCalls gl.calls ++
        [GLCall.glDrawArrays GL_TRIANGLES 0 g.skyBox.numberOfVertices,
         GLCall.glDrawArrays GL_TRIANGLES 0 g.sphere1.base.numberOfVertices]
    ∧ (renderScene g gl).depthMask = true
    ∧ (renderScene g gl).boundVertexArray = 0 := by
  refine ⟨?_, ?_, ?_, rfl⟩
  · simp [renderScene, glClear, glClearColor, glUseProgram, glDepthMask, glBindVertexArray,
      glActiveTexture, glBindTexture, glDrawArrays, glUniformMatrix4fv, glUniform3f,
      GL_FALSE, GL_TRUE]
  · simp [renderScene, glClear, glClearColor, glUseProgram, glDepthMask, glBindVertexArray,
      glActiveTexture, glBindTexture, glDrawArrays, glUniformMatrix4fv, glUniform3f,
      drawCalls, List.filter_append, List.filter_cons]
  · simp [renderScene, glClear, glClearColor, glUseProgram, glDepthMask, glBindVertexArray,
      glActiveTexture, glBindTexture, glDrawArrays, glUniformMatrix4fv, glUniform3f,
      GL_FALSE, GL_TRUE]

/-! ## Shader compilation (`createShader`) -/

theorem cstrTake_of_length_le (n : Nat) (s : String) (h : s.length ≤ n) : cstrTake n s = s := by
  have hd : s.data.length ≤ n := h
  simp only [cstrTake]
  rw [List.take_of_length_le hd]

theorem cstrTake_self (s : String) : cstrTake s.length s = s :=
  cstrTake_of_length_le _ s (Nat.le_refl _)

section CreateShader
variable {α : Type}

theorem nextShaderName_fresh (gl : GLState α) :
    ∀ o ∈ gl.shaders, o.name ≠ gl.nextShaderName := by
  intro o ho h
  have hmem : o.name ∈ gl.usedNames :=
    List.mem_append_left _ (List.mem_append_left _ (List.mem_map_of_mem _ ho))
  exact Nat.ne_of_lt (lt_freshName _ _ hmem) h

theorem map_update_fresh (l : List ShaderObject) (n : GLuint) (F : ShaderObject → ShaderObject)
    (h : ∀ o ∈ l, o.name ≠ n) : l.map (fun o => if o.name = n then F o else o) = l := by
  induction l with
  | nil => rfl
  | cons a t ih =>
    have ha : a.name ≠ n := h a (List.mem_cons_self _ _)
    simp only [List.map_cons, if_neg ha]
    rw [ih (fun o ho => h o (List.mem_cons_of_mem _ ho))]

theorem find_fresh (l : List ShaderObject) (x : ShaderObject)
    (h : ∀ o ∈ l, o.name ≠ x.name) :
    (l ++ [x]).find? (fun o => o.name == x.name) = some x := by
  induction l with
  | nil => simp
  | cons a t ih =>
    have ha : a.name ≠ x.name := h a (List.mem_cons_self _ _)
    have hb : (a.name == x.name) = false := by simpa using ha
    rw [List.cons_append, List.find?_cons, hb]
    exact ih (fun o ho => h o (List.mem_cons_of_mem _ ho))

theorem filter_fresh (l : List ShaderObject) (x : ShaderObject)
    (h : ∀ o ∈ l, o.name ≠ x.name) :
    (l ++ [x]).filter (fun o => o.name != x.name) = l := by
  induction l with
  | nil => simp
  | cons a t ih =>
    have ha : a.name ≠ x.name := h a (List.mem_cons_self _ _)
    have hb : (a.name != x.name) = true := by simpa using ha
    rw [List.cons_append, List.filter_cons, hb, if_pos rfl,
      ih (fun o ho => h o (List.mem_cons_of_mem _ ho))]

theorem not_attached_nextShaderName (gl : GLState α) :
    gl.programs.any (fun p => p.attached.contains gl.nextShaderName) = false := by
  rw [List.any_eq_false]
  intro p hp hc
  have hmem : gl.nextShaderName ∈ p.attached := by simpa using hc
  have hused : gl.nextShaderName ∈ gl.usedNames :=
    List.mem_append_right _
      (List.mem_flatten.mpr ⟨p.attached, List.mem_map_of_mem _ hp, hmem⟩)
  exact freshName_not_mem _ hused

/-- The shader objects of the context once `createShader` has created, sourced and
compiled its shader: the old ones, then the new one with the outcome of the compilation. -/
theorem compiled_shaders (drv : Driver) (sourceCode : String) (shaderType : GLenum)
    (gl : GLState α)
    (hty : shaderType = GL_VERTEX_SHADER ∨ shaderType = GL_FRAGMENT_SHADER) :
    (glCreateShader shaderType gl).1 = gl.nextShaderName
    ∧ (glCompileShader drv gl.nextShaderName
        (glShaderSource gl.nextShaderName sourceCode (toInt32 sourceCode.length)
          (glCreateShader shaderType gl).2)).shaders
      = gl.shaders ++
          [{ name := gl.nextShaderName, shaderType := shaderType, source := sourceHandedOver sourceCode,
             compileStatus := (drv.compile shaderType (sourceHandedOver sourceCode)).1,
             infoLog := (drv.compile shaderType (sourceHandedOver sourceCode)).2, deleteStatus := false }] := by
  have hfresh := nextShaderName_fresh gl
  constructor
  · simp only [glCreateShader, if_pos hty]
    rfl
  · simp only [glCreateShader, if_pos hty, glShaderSource, glCompileShader, List.map_append]
    rw [map_update_fresh gl.shaders gl.nextShaderName _ hfresh,
      map_update_fresh gl.shaders gl.nextShaderName _ hfresh]
    simp [GLState.nextShaderName, sourceHandedOver]

/-- What the calls after `glCompileShader` in `createShader` do on a context `G` whose last
shader object `obj` is the only one named `n` and is attached to no program. -/
theorem createShader_tail (G : GLState α) (n : GLuint) (old : List ShaderObject)
    (obj : ShaderObject) (hshaders : G.shaders = old ++ [obj]) (hname : obj.name = n)
    (hfresh : ∀ o ∈ old, o.name ≠ n)
    (hatt : G.programs.any (fun p => p.attached.contains n) = false) :
    (glGetShaderiv n GL_COMPILE_STATUS 0 G).1 = (if obj.compileStatus then 1 else 0)
    ∧ (glGetShaderiv n GL_COMPILE_STATUS 0 G).2.shaders = old ++ [obj]
    ∧ (glGetShaderiv n GL_COMPILE_STATUS 0 G).2.calls
        = G.calls ++ [GLCall.glGetShaderiv n GL_COMPILE_STATUS]
    ∧ (glGetShaderInfoLog n 1024 "" (glGetShaderiv n GL_COMPILE_STATUS 0 G).2).1
        = cstrTake 1023 obj.infoLog
    ∧ (glDeleteShader n
        (glGetShaderInfoLog n 1024 "" (glGetShaderiv n GL_COMPILE_STATUS 0 G).2).2).shaders = old
    ∧ (glDeleteShader n
        (glGetShaderInfoLog n 1024 "" (glGetShaderiv n GL_COMPILE_STATUS 0 G).2).2).calls
        = G.calls ++ [GLCall.glGetShaderiv n GL_COMPILE_STATUS,
            GLCall.glGetShaderInfoLog n 1024, GLCall.glDeleteShader n] := by
  subst hname
  have hfind : List.find? (fun o => o.name == obj.name) (old ++ [obj]) = some obj :=
    find_fresh old obj hfresh
  have hfilter : List.filter (fun o => o.name != obj.name) (old ++ [obj]) = old :=
    filter_fresh old obj hfresh
  refine ⟨?_, ?_, ?_, ?_, ?_, ?_⟩
  · simp only [glGetShaderiv, hshaders, hfind]
  · simp only [glGetShaderiv, hshaders]
  · simp only [glGetShaderiv]
  · simp only [glGetShaderiv, glGetShaderInfoLog, hshaders, hfind]
  · simp only [glGetShaderiv, glGetShaderInfoLog, glDeleteShader, GLState.isAttached, hshaders,
      hatt, hfilter]
    simp
  · simp only [glGetShaderiv, glGetShaderInfoLog, glDeleteShader, List.append_assoc,
      List.cons_append, List.nil_append]

theorem compiled_context (drv : Driver) (sourceCode : String) (shaderType : GLenum)
    (gl : GLState α)
    (hty : shaderType = GL_VERTEX_SHADER ∨ shaderType = GL_FRAGMENT_SHADER) :
    (glCompileShader drv gl.nextShaderName
        (glShaderSource gl.nextShaderName sourceCode (toInt32 sourceCode.length)
          (glCreateShader shaderType gl).2)).programs = gl.programs
    ∧ (glCompileShader drv gl.nextShaderName
        (glShaderSource gl.nextShaderName sourceCode (toInt32 sourceCode.length)
          (glCreateShader shaderType gl).2)).calls
      = gl.calls ++
          [GLCall.glCreateShader shaderType gl.nextShaderName,
           GLCall.glShaderSource gl.nextShaderName 1 sourceCode (toInt32 sourceCode.length),
           GLCall.glCompileShader gl.nextShaderName] := by
  constructor
  · simp only [glCreateShader, if_pos hty, glShaderSource, glCompileShader]
  · simp only [glCreateShader, if_pos hty, glShaderSource, glCompileShader,
      List.append_assoc, List.cons_append, List.nil_append]
    rfl

theorem createShader_fail (drv : Driver) (sourceCode : String) (shaderType : GLenum)
    (gl : GLState α) (out : List String)
    (hty : shaderType = GL_VERTEX_SHADER ∨ shaderType = GL_FRAGMENT_SHADER)
    (hfail : (drv.compile shaderType (sourceHandedOver sourceCode)).1 = false) :
    (createShader drv sourceCode shaderType gl out).1 = gl.nextShaderName
    ∧ (createShader drv sourceCode shaderType gl out).2.2
        = out ++ [compileErrorBanner, endl,
                  cstrTake 1023 (drv.compile shaderType (sourceHandedOver sourceCode)).2, endl]
    ∧ (createShader drv sourceCode shaderType gl out).2.1.shaders = gl.shaders
    ∧ (createShader drv sourceCode shaderType gl out).2.1.calls
        = gl.calls ++
          [GLCall.glCreateShader shaderType gl.nextShaderName,
           GLCall.glShaderSource gl.nextShaderName 1 sourceCode (toInt32 sourceCode.length),
           GLCall.glCompileShader gl.nextShaderName,
           GLCall.glGetShaderiv gl.nextShaderName GL_COMPILE_STATUS,
           GLCall.glGetShaderInfoLog gl.nextShaderName 1024,
           GLCall.glDeleteShader gl.nextShaderName] := by
  obtain ⟨h1, h2⟩ := compiled_shaders drv sourceCode shaderType gl hty
  obtain ⟨hprog, hcalls⟩ := compiled_context drv sourceCode shaderType gl hty
  have hatt := not_attached_nextShaderName gl
  rw [← hprog] at hatt
  obtain ⟨t1, _, _, t4, t5, t6⟩ := createShader_tail _ gl.nextShaderName gl.shaders _ h2 rfl
    (nextShaderName_fresh gl) hatt
  simp only [hfail] at t1
  have hbranch : (glGetShaderiv gl.nextShaderName GL_COMPILE_STATUS 0
      (glCompileShader drv gl.nextShaderName
        (glShaderSource gl.nextShaderName sourceCode (toInt32 sourceCode.length)
          (glCreateShader shaderType gl).2))).1 = ((GL_FALSE : Nat) : Int) := by
    rw [t1]
    rfl
  simp only [createShader, h1, if_pos hbranch]
  refine ⟨trivial, ?_, t5, ?_⟩
  · rw [t4]
    rfl
  · rw [t6, hcalls]
    simp

theorem createShader_ok (drv : Driver) (sourceCode : String) (shaderType : GLenum)
    (gl : GLState α) (out : List String)
    (hty : shaderType = GL_VERTEX_SHADER ∨ shaderType = GL_FRAGMENT_SHADER)
    (hok : (drv.compile shaderType (sourceHandedOver sourceCode)).1 = true) :
    (createShader drv sourceCode shaderType gl out).1 = gl.nextShaderName
    ∧ (createShader drv sourceCode shaderType gl out).2.2 = out
    ∧ (createShader drv sourceCode shaderType gl out).2.1.shaders
        = gl.shaders ++
            [{ name := gl.nextShaderName, shaderType := shaderType, source := sourceHandedOver sourceCode,
               compileStatus := true,
               infoLog := (drv.compile shaderType (sourceHandedOver sourceCode)).2, deleteStatus := false }]
    ∧ (createShader drv sourceCode shaderType gl out).2.1.calls
        = gl.calls ++
          [GLCall.glCreateShader shaderType gl.nextShaderName,
           GLCall.glShaderSource gl.nextShaderName 1 sourceCode (toInt32 sourceCode.length),
           GLCall.glCompileShader gl.nextShaderName,
           GLCall.glGetShaderiv gl.nextShaderName GL_COMPILE_STATUS] := by
  obtain ⟨h1, h2⟩ := compiled_shaders drv sourceCode shaderType gl hty
  obtain ⟨hprog, hcalls⟩ := compiled_context drv sourceCode shaderType gl hty
  have hfind := find_fresh gl.shaders
    { name := gl.nextShaderName, shaderType := shaderType, source := sourceHandedOver sourceCode,
      compileStatus := (drv.compile shaderType (sourceHandedOver sourceCode)).1,
      infoLog := (drv.compile shaderType (sourceHandedOver sourceCode)).2, deleteStatus := false }
    (nextShaderName_fresh gl)
  have t1 : (glGetShaderiv gl.nextShaderName GL_COMPILE_STATUS 0
      (glCompileShader drv gl.nextShaderName
        (glShaderSource gl.nextShaderName sourceCode (toInt32 sourceCode.length)
          (glCreateShader shaderType gl).2))).1 = 1 := by
    simp only [glGetShaderiv, h2]
    rw [hfind]
    simp [hok]
  have hbranch : ¬ (glGetShaderiv gl.nextShaderName GL_COMPILE_STATUS 0
      (glCompileShader drv gl.nextShaderName
        (glShaderSource gl.nextShaderName sourceCode (toInt32 sourceCode.length)
          (glCreateShader shaderType gl).2))).1 = ((GL_FALSE : Nat) : Int) := by
    rw [t1]
    simp [GL_FALSE]
  simp only [createShader, h1, if_neg hbranch]
  refine ⟨trivial, trivial, ?_, ?_⟩
  · simp only [glGetShaderiv, h2, hok]
  · simp only [glGetShaderiv, hcalls, List.append_assoc, List.cons_append, List.nil_append]

theorem longLog_length : longLog.length = 1024 := by
  show (List.replicate 1024 'x').length = 1024
  exact List.length_replicate _ _

theorem cstrTake_longLog_length : (cstrTake 1023 longLog).length = 1023 := by
  show (List.take 1023 (List.replicate 1024 'x')).length = 1023
  rw [List.length_take, List.length_replicate]
  rfl

theorem toInt32_of_lt (n : Nat) (h : n < 2147483648) : toInt32 (n : Int) = n := by
  simp only [toInt32]
  omega

theorem sourceHandedOver_short (sourceCode : String) (h : sourceCode.length < 2147483648) :
    sourceHandedOver sourceCode = sourceCode := by
  have h32 := toInt32_of_lt sourceCode.length h
  have hnn : ¬ ((sourceCode.length : Int) < 0) := by omega
  simp only [sourceHandedOver, h32, hnn, if_false, Int.toNat_ofNat]
  exact cstrTake_self sourceCode

end CreateShader

/-- C10 fails as stated: with an information log of 1024 characters, a failed compilation
makes `createShader` print the banner and the first 1023 characters of the log, which is
not the log the compiler produced. -/
theorem createShader_long_log_counterexample :
    ((rejectingDriver longLog).compile GL_VERTEX_SHADER "void main").1 = false
    ∧ ((rejectingDriver longLog).compile GL_VERTEX_SHADER "void main").2 = longLog
    ∧ longLog.length = 1024
    ∧ (createShader (rejectingDriver longLog) "void main" GL_VERTEX_SHADER
          (GLState.initial ℚ) []).2.2
        = [compileErrorBanner, endl, cstrTake 1023 longLog, endl]
    ∧ (cstrTake 1023 longLog).length = 1023
    ∧ (createShader (rejectingDriver longLog) "void main" GL_VERTEX_SHADER
          (GLState.initial ℚ) []).2.2
        ≠ [compileErrorBanner, endl, longLog, endl] := by
  have h := (createShader_fail (rejectingDriver longLog) "void main" GL_VERTEX_SHADER
    (GLState.initial ℚ) [] (Or.inl rfl) rfl).2.1
  have hne : cstrTake 1023 longLog ≠ longLog := by
    intro e
    have h1 := cstrTake_longLog_length
    rw [e, longLog_length] at h1
    exact absurd h1 (by decide)
  refine ⟨rfl, rfl, longLog_length, h, cstrTake_longLog_length, ?_⟩
  rw [h]
  intro e
  exact hne (List.cons.inj (List.cons.inj (List.cons.inj e).2).2).1

/-- C10, amended: for every source text, every context and a vertex or fragment stage,
`createShader` returns the non-zero name of the shader object it created, and the text it
hands to the compiler is the source text itself when that has fewer than `2^31` characters
(from `2^31` characters on the `int` length wraps: `2^31` is passed as `-2147483648`).  When
compilation of the text handed over fails it prints the banner, then the diagnostic log as
`glGetShaderInfoLog` delivers it into the 1024-character buffer (its first 1023 characters,
which is the whole log when that is shorter than 1024 characters), calls `glDeleteShader`
on the shader, and the name it returns is not the name of a shader object of the context
any more (the shader objects are those from before the call).  When that compilation
succeeds it prints nothing and the name it returns is that of the new, compiled shader
object, still in the context. -/
theorem createShader_result {α : Type} (drv : Driver) (sourceCode : String)
    (shaderType : GLenum) (gl : GLState α) (out : List String)
    (hty : shaderType = GL_VERTEX_SHADER ∨ shaderType = GL_FRAGMENT_SHADER) :
    (createShader drv sourceCode shaderType gl out).1 = gl.nextShaderName
    ∧ gl.nextShaderName ≠ 0
    ∧ gl.isShader gl.nextShaderName = false
    ∧ ((drv.compile shaderType (sourceHandedOver sourceCode)).1 = false →
        (createShader drv sourceCode shaderType gl out).2.2
            = out ++ [compileErrorBanner, endl,
                      cstrTake 1023 (drv.compile shaderType (sourceHandedOver sourceCode)).2,
                      endl]
        ∧ ((drv.compile shaderType (sourceHandedOver sourceCode)).2.length < 1024 →
            (createShader drv sourceCode shaderType gl out).2.2
              = out ++ [compileErrorBanner, endl,
                        (drv.compile shaderType (sourceHandedOver sourceCode)).2, endl])
        ∧ GLCall.glDeleteShader gl.nextShaderName
            ∈ (createShader drv sourceCode shaderType gl out).2.1.calls
        ∧ (createShader drv sourceCode shaderType gl out).2.1.shaders = gl.shaders
        ∧ (createShader drv sourceCode shaderType gl out).2.1.isShader
            (createShader drv sourceCode shaderType gl out).1 = false)
    ∧ ((drv.compile shaderType (sourceHandedOver sourceCode)).1 = true →
        (createShader drv sourceCode shaderType gl out).2.2 = out
        ∧ (createShader drv sourceCode shaderType gl out).2.1.shaders
            = gl.shaders ++
                [{ name := gl.nextShaderName, shaderType := shaderType,
                   source := sourceHandedOver sourceCode, compileStatus := true,
                   infoLog := (drv.compile shaderType (sourceHandedOver sourceCode)).2,
                   deleteStatus := false }]
        ∧ (createShader drv sourceCode shaderType gl out).2.1.isShader
            (createShader drv sourceCode shaderType gl out).1 = true)
    ∧ (sourceCode.length < 2147483648 → sourceHandedOver sourceCode = sourceCode)
    ∧ toInt32 2147483648 = -2147483648 := by
  have hfresh := nextShaderName_fresh gl
  have hnot : gl.isShader gl.nextShaderName = false := by
    rw [GLState.isShader, List.any_eq_false]
    intro o ho
    simpa using hfresh o ho
  have hname : (createShader drv sourceCode shaderType gl out).1 = gl.nextShaderName := by
    cases hc : (drv.compile shaderType (sourceHandedOver sourceCode)).1
    · exact (createShader_fail drv sourceCode shaderType gl out hty hc).1
    · exact (createShader_ok drv sourceCode shaderType gl out hty hc).1
  refine ⟨hname, freshName_ne_zero _, hnot, ?_, ?_, sourceHandedOver_short sourceCode,
    by decide⟩
  · intro hfail
    obtain ⟨_, hout, hsh, hcalls⟩ :=
      createShader_fail drv sourceCode shaderType gl out hty hfail
    refine ⟨hout, ?_, ?_, hsh, ?_⟩
    · intro hlen
      rw [hout, cstrTake_of_length_le 1023 _ (Nat.le_of_lt_succ hlen)]
    · rw [hcalls]
      simp
    · rw [hname, GLState.isShader, hsh]
      exact hnot
  · intro hok
    obtain ⟨_, hout, hsh, _⟩ := createShader_ok drv sourceCode shaderType gl out hty hok
    refine ⟨hout, hsh, ?_⟩
    rw [hname, GLState.isShader, hsh]
    simp

/-- Witness for C10: a rejected vertex shader and an accepted fragment shader on a fresh
context. -/
theorem createShader_result_witness :
    (GL_VERTEX_SHADER = GL_VERTEX_SHADER ∨ GL_VERTEX_SHADER = GL_FRAGMENT_SHADER)
    ∧ (createShader (rejectingDriver "ERROR: 0:1: unexpected end of text") "void main"
        GL_VERTEX_SHADER (GLState.initial ℚ) []).1 = 1
    ∧ (createShader (rejectingDriver "ERROR: 0:1: unexpected end of text") "void main"
        GL_VERTEX_SHADER (GLState.initial ℚ) []).2.2
          = [compileErrorBanner, endl, "ERROR: 0:1: unexpected end of text", endl]
    ∧ (createShader (rejectingDriver "ERROR: 0:1: unexpected end of text") "void main"
        GL_VERTEX_SHADER (GLState.initial ℚ) []).2.1.isShader
        (createShader (rejectingDriver "ERROR: 0:1: unexpected end of text") "void main"
          GL_VERTEX_SHADER (GLState.initial ℚ) []).1 = false
    ∧ (createShader sampleDriver "void main" GL_FRAGMENT_SHADER (GLState.initial ℚ) []).2.1.isShader
        (createShader sampleDriver "void main" GL_FRAGMENT_SHADER (GLState.initial ℚ) []).1 = true :=
  have h := createShader_result (rejectingDriver "ERROR: 0:1: unexpected end of text")
    "void main" GL_VERTEX_SHADER (GLState.initial ℚ) [] (Or.inl rfl)
  have k := createShader_result sampleDriver "void main" GL_FRAGMENT_SHADER
    (GLState.initial ℚ) [] (Or.inr rfl)
  ⟨Or.inl rfl, h.1, ((h.2.2.2.1 rfl).2.1 (by decide)),
    (h.2.2.2.1 rfl).2.2.2.2, (k.2.2.2.2.1 rfl).2.2⟩

/-! ## Sphere mesh: the angles of a cell -/

section SphereAngles
variable {α : Type} [Field α]

theorem sphereInner_iterate_angles (sin cos : α → α) (PI r pd yd : α) (n : Nat)
    (s : SphereLoop α) :
    ((sphereInnerBody sin cos PI r pd yd)^[n] s).pitch = s.pitch
    ∧ ((sphereInnerBody sin cos PI r pd yd)^[n] s).yaw = s.yaw + n * yd := by
  induction n generalizing s with
  | zero => simp
  | succ n ih =>
    rw [Function.iterate_succ_apply]
    obtain ⟨hp, hy⟩ := ih (sphereInnerBody sin cos PI r pd yd s)
    rw [hp, hy]
    constructor
    · rfl
    · simp only [sphereInnerBody]
      push_cast
      ring

theorem sphereOuterBody_angles (sin cos : α → α) (PI r pd yd : α) (d : Nat)
    (s : SphereLoop α) :
    (sphereOuterBody sin cos PI r pd yd d s).pitch = s.pitch + pd
    ∧ (sphereOuterBody sin cos PI r pd yd d s).yaw = s.yaw + d * yd := by
  obtain ⟨hp, hy⟩ := sphereInner_iterate_angles sin cos PI r pd yd d s
  simp only [sphereOuterBody, forLoop_zero_eq_iterate]
  exact ⟨by rw [hp], hy⟩

theorem sphereOuter_iterate_angles (sin cos : α → α) (PI r pd yd : α) (d n : Nat)
    (s : SphereLoop α) :
    ((sphereOuterBody sin cos PI r pd yd d)^[n] s).pitch = s.pitch + n * pd
    ∧ ((sphereOuterBody sin cos PI r pd yd d)^[n] s).yaw = s.yaw + n * (d * yd) := by
  induction n generalizing s with
  | zero => simp
  | succ n ih =>
    rw [Function.iterate_succ_apply]
    obtain ⟨hp, hy⟩ := ih (sphereOuterBody sin cos PI r pd yd d s)
    obtain ⟨hp1, hy1⟩ := sphereOuterBody_angles sin cos PI r pd yd d s
    rw [hp, hy, hp1, hy1]
    constructor
    · push_cast
      ring
    · push_cast
      ring

/-- The angles on entry to cell `(i, j)`: `i` steps of pitch, and `DIVISIONS * i + j` steps
of yaw, because `yaw` keeps growing from one row to the next. -/
theorem sphereCellEntry_angles (sin cos : α → α) (PI : α) (i j : Nat) :
    (sphereCellEntry sin cos PI i j).pitch = i * pitchDelta
    ∧ (sphereCellEntry sin cos PI i j).yaw = (DIVISIONS * i + j : Nat) * yawDelta := by
  simp only [sphereCellEntry, forLoop_zero_eq_iterate]
  obtain ⟨hp, hy⟩ := sphereInner_iterate_angles sin cos PI sphereRadius pitchDelta yawDelta j
    ((sphereOuterBody sin cos PI sphereRadius pitchDelta yawDelta DIVISIONS)^[i] sphereLoopInit)
  obtain ⟨hp1, hy1⟩ := sphereOuter_iterate_angles sin cos PI sphereRadius pitchDelta yawDelta
    DIVISIONS i sphereLoopInit
  rw [hp, hy, hp1, hy1]
  constructor
  · simp [sphereLoopInit]
  · simp only [sphereLoopInit]
    push_cast
    ring

end SphereAngles

/-- C13 fails as stated: on entry to cell `(1, 0)` the yaw angle is 360 degrees, not
`0 * (360/40) = 0`, and it does not lie below 360. -/
theorem sphere_yaw_counterexample :
    (sphereCellEntry (id : ℚ → ℚ) id PI 1 0).yaw = 360
    ∧ ¬ ((sphereCellEntry (id : ℚ → ℚ) id PI 1 0).yaw = ((0 : Nat) : ℚ) * (360 / 40))
    ∧ ¬ ((sphereCellEntry (id : ℚ → ℚ) id PI 1 0).yaw < 360) := by
  have h := (sphereCellEntry_angles (id : ℚ → ℚ) id PI 1 0).2
  have h360 : (sphereCellEntry (id : ℚ → ℚ) id PI 1 0).yaw = 360 := by
    rw [h]
    norm_num [yawDelta, DIVISIONS]
  refine ⟨h360, ?_, ?_⟩ <;> rw [h360] <;> norm_num

/-- C13, amended: for every cell `(i, j)` with `i, j < 40` of `setupSphere`, corner `p1` is
computed from the pitch angle `i * (360/40)` degrees, which lies in `[0, 360)`, and from the
yaw angle `(40 * i + j) * (360/40)` degrees, which is `j * (360/40)` plus `i` full turns of
360 degrees (yaw is not reset between rows) and lies in `[0, 14400)`. -/
theorem sphere_cell_angles {α : Type} [LinearOrderedField α] (sin cos : α → α) (PI : α)
    (i j : Nat) (hi : i < 40) (hj : j < 40) :
    (sphereCellAt sin cos PI i j).p1
        = sphericalVertex sin cos PI sphereRadius (sphereCellEntry sin cos PI i j).pitch
            (sphereCellEntry sin cos PI i j).yaw
    ∧ (sphereCellEntry sin cos PI i j).pitch = (i : α) * (360 / 40)
    ∧ (sphereCellEntry sin cos PI i j).yaw = ((40 * i + j : Nat) : α) * (360 / 40)
    ∧ (sphereCellEntry sin cos PI i j).yaw = (j : α) * (360 / 40) + 360 * (i : α)
    ∧ 0 ≤ (sphereCellEntry sin cos PI i j).pitch
    ∧ (sphereCellEntry sin cos PI i j).pitch < 360
    ∧ 0 ≤ (sphereCellEntry sin cos PI i j).yaw
    ∧ (sphereCellEntry sin cos PI i j).yaw < 14400 := by
  obtain ⟨hp, hy⟩ := sphereCellEntry_angles sin cos PI i j
  have hi0 : (0 : α) ≤ (i : α) := Nat.cast_nonneg i
  have hj0 : (0 : α) ≤ (j : α) := Nat.cast_nonneg j
  have hi39 : (i : α) ≤ 39 := by exact_mod_cast Nat.le_of_lt_succ hi
  have hj39 : (j : α) ≤ 39 := by exact_mod_cast Nat.le_of_lt_succ hj
  have hp9 : (sphereCellEntry sin cos PI i j).pitch = (i : α) * 9 := by
    rw [hp]
    norm_num [pitchDelta, DIVISIONS]
  have hy9 : (sphereCellEntry sin cos PI i j).yaw = (40 * (i : α) + (j : α)) * 9 := by
    rw [hy]
    norm_num [yawDelta, DIVISIONS]
  refine ⟨rfl, ?_, ?_, ?_, ?_, ?_, ?_, ?_⟩
  · rw [hp9]
    norm_num
  · rw [hy9]
    norm_num
  · rw [hy9]
    ring
  · rw [hp9]
    linarith
  · rw [hp9]
    linarith
  · rw [hy9]
    linarith
  · rw [hy9]
    linarith

/-- Witness for C13: cell `(2, 3)` over the rationals has pitch 18 and yaw 747. -/
theorem sphere_cell_angles_witness :
    (2 < 40 ∧ 3 < 40)
    ∧ (sphereCellEntry (id : ℚ → ℚ) id PI 2 3).pitch = 18
    ∧ (sphereCellEntry (id : ℚ → ℚ) id PI 2 3).yaw = 747 :=
  ⟨⟨by decide, by decide⟩,
    (sphere_cell_angles (id : ℚ → ℚ) id PI 2 3 (by decide) (by decide)).2.1.trans (by norm_num),
    (sphere_cell_angles (id : ℚ → ℚ) id PI 2 3 (by decide) (by decide)).2.2.1.trans
      (by norm_num)⟩

/-! ## Sphere mesh: normals and layout -/

section SphereLayout
variable {α : Type} [Field α]

theorem sphereInnerBody_forall (P : VertexFormat α → Prop) (sin cos : α → α) (PI r pd yd : α)
    (hcell : ∀ pitch yaw : α,
      P (sphereCell sin cos PI r pd yd pitch yaw).p1
      ∧ P (sphereCell sin cos PI r pd yd pitch yaw).p2
      ∧ P (sphereCell sin cos PI r pd yd pitch yaw).p3
      ∧ P (sphereCell sin cos PI r pd yd pitch yaw).p4)
    (s : SphereLoop α) (hs : ∀ v ∈ s.vertexSet, P v) :
    ∀ v ∈ (sphereInnerBody sin cos PI r pd yd s).vertexSet, P v := by
  obtain ⟨h1, h2, h3, h4⟩ := hcell s.pitch s.yaw
  intro v hv
  simp only [sphereInnerBody, List.mem_append, List.mem_cons, List.mem_singleton,
    List.not_mem_nil, or_false] at hv
  rcases hv with hv | hv | hv | hv | hv | hv | hv
  · exact hs v hv
  all_goals (subst hv; assumption)

theorem sphereOuterBody_forall (P : VertexFormat α → Prop) (sin cos : α → α) (PI r pd yd : α)
    (d : Nat)
    (hcell : ∀ pitch yaw : α,
      P (sphereCell sin cos PI r pd yd pitch yaw).p1
      ∧ P (sphereCell sin cos PI r pd yd pitch yaw).p2
      ∧ P (sphereCell sin cos PI r pd yd pitch yaw).p3
      ∧ P (sphereCell sin cos PI r pd yd pitch yaw).p4)
    (s : SphereLoop α) (hs : ∀ v ∈ s.vertexSet, P v) :
    ∀ v ∈ (sphereOuterBody sin cos PI r pd yd d s).vertexSet, P v := by
  simp only [sphereOuterBody, forLoop_zero_eq_iterate]
  exact Function.Iterate.rec (fun t : SphereLoop α => ∀ v ∈ t.vertexSet, P v)
    (fun t ht => sphereInnerBody_forall P sin cos PI r pd yd hcell t ht) hs d

/-- A property that the four corners of every cell have holds for every vertex of the mesh. -/
theorem sphereVertexSet_forall (P : VertexFormat α → Prop) (sin cos : α → α) (PI : α)
    (hcell : ∀ pitch yaw : α,
      P (sphereCell sin cos PI sphereRadius pitchDelta yawDelta pitch yaw).p1
      ∧ P (sphereCell sin cos PI sphereRadius pitchDelta yawDelta pitch yaw).p2
      ∧ P (sphereCell sin cos PI sphereRadius pitchDelta yawDelta pitch yaw).p3
      ∧ P (sphereCell sin cos PI sphereRadius pitchDelta yawDelta pitch yaw).p4) :
    ∀ v ∈ sphereVertexSet sin cos PI, P v := by
  simp only [sphereVertexSet, sphereLoops, forLoop_zero_eq_iterate]
  refine Function.Iterate.rec (fun t : SphereLoop α => ∀ v ∈ t.vertexSet, P v)
    (fun t ht => sphereOuterBody_forall P sin cos PI _ _ _ DIVISIONS hcell t ht) ?_ DIVISIONS
  intro v hv
  simp [sphereLoopInit] at hv

/-- C15: every vertex of the `setupSphere` mesh has its normal equal, component for
component, to its own position; with the real `sin` and `cos` the normal therefore has
squared length `radius^2 = (1/4)^2`, so it is not a unit vector. -/
theorem sphere_normal_eq_position (sin cos : α → α) (PI : α) :
    (∀ v ∈ sphereVertexSet sin cos PI,
        v.normal.x = v.position.x ∧ v.normal.y = v.position.y ∧ v.normal.z = v.position.z)
    ∧ (∀ v ∈ sphereVertexSet sin cos PI, v.normal = v.position)
    ∧ (∀ PIr : ℝ, ∀ v ∈ sphereVertexSet Real.sin Real.cos PIr,
        v.normal.normSq = (1 / 4 : ℝ) ^ 2 ∧ v.normal.normSq ≠ 1) := by
  have hn : ∀ v ∈ sphereVertexSet sin cos PI, v.normal = v.position :=
    sphereVertexSet_forall (fun v => v.normal = v.position) sin cos PI
      (fun _ _ => ⟨rfl, rfl, rfl, rfl⟩)
  refine ⟨fun v hv => ?_, hn, fun PIr => ?_⟩
  · rw [hn v hv]
    exact ⟨rfl, rfl, rfl⟩
  · have hs := sphereVertexSet_forall (fun v => v.normal.normSq = (1 / 4 : ℝ) ^ 2)
      Real.sin Real.cos PIr (fun pitch yaw => by
        have h := sphereCell_normSq PIr sphereRadius pitchDelta yawDelta pitch yaw
        simpa [sphereCell, sphereRadius] using h)
    intro v hv
    refine ⟨hs v hv, ?_⟩
    rw [hs v hv]
    norm_num

theorem iterate_initial {σ β : Type} (vs : σ → List β) (f : σ → σ)
    (hf : ∀ s, vs s <+: vs (f s)) (n : Nat) (s : σ) : vs s <+: vs (f^[n] s) := by
  induction n generalizing s with
  | zero => exact List.prefix_refl _
  | succ n ih =>
    rw [Function.iterate_succ_apply]
    exact (hf s).trans (ih _)

theorem iterate_step_initial {σ β : Type} (vs : σ → List β) (f : σ → σ)
    (hf : ∀ s, vs s <+: vs (f s)) (j n : Nat) (h : j < n) (s : σ) :
    vs (f (f^[j] s)) <+: vs (f^[n] s) := by
  obtain ⟨k, rfl⟩ : ∃ k, n = k + (j + 1) := ⟨n - (j + 1), by omega⟩
  rw [Function.iterate_add_apply, Function.iterate_succ_apply']
  exact iterate_initial vs f hf k _

theorem sphereInnerBody_initial (sin cos : α → α) (PI r pd yd : α) (s : SphereLoop α) :
    s.vertexSet <+: (sphereInnerBody sin cos PI r pd yd s).vertexSet := by
  simp only [sphereInnerBody]
  exact List.prefix_append _ _

theorem sphereOuterBody_initial (sin cos : α → α) (PI r pd yd : α) (d : Nat)
    (s : SphereLoop α) :
    s.vertexSet <+: (sphereOuterBody sin cos PI r pd yd d s).vertexSet := by
  simp only [sphereOuterBody, forLoop_zero_eq_iterate]
  exact iterate_initial SphereLoop.vertexSet _ (sphereInnerBody_initial sin cos PI r pd yd) d s

/-- The vertex set after the pass through cell `(i, j)` is an initial segment of the final
vertex set. -/
theorem sphereCellEntry_initial (sin cos : α → α) (PI : α) (i j : Nat)
    (hi : i < DIVISIONS) (hj : j < DIVISIONS) :
    (sphereInnerBody sin cos PI sphereRadius pitchDelta yawDelta
        (sphereCellEntry sin cos PI i j)).vertexSet
      <+: sphereVertexSet sin cos PI := by
  simp only [sphereVertexSet, sphereLoops, sphereCellEntry, forLoop_zero_eq_iterate]
  have hrow := iterate_step_initial SphereLoop.vertexSet _
    (sphereInnerBody_initial sin cos PI sphereRadius pitchDelta yawDelta) j DIVISIONS hj
    ((sphereOuterBody sin cos PI sphereRadius pitchDelta yawDelta DIVISIONS)^[i] sphereLoopInit)
  have hcol := iterate_step_initial SphereLoop.vertexSet _
    (sphereOuterBody_initial sin cos PI sphereRadius pitchDelta yawDelta DIVISIONS) i DIVISIONS hi
    sphereLoopInit
  refine (hrow.trans ?_).trans hcol
  simp only [sphereOuterBody, forLoop_zero_eq_iterate]
  exact List.prefix_refl _

theorem sphereCellEntry_length (sin cos : α → α) (PI : α) (i j : Nat) :
    (sphereCellEntry sin cos PI i j).vertexSet.length = 6 * (i * 40 + j) := by
  simp only [sphereCellEntry, forLoop_zero_eq_iterate]
  rw [sphereInner_iterate_length, sphereOuter_iterate_length]
  simp only [sphereLoopInit, DIVISIONS, List.length_nil]
  ring

/-- The six vertices at positions `6k .. 6k+5`, `k = i * 40 + j`, of the final vertex set
are those pushed in cell `(i, j)`. -/
theorem sphereVertexSet_cell (sin cos : α → α) (PI : α) (i j : Nat)
    (hi : i < DIVISIONS) (hj : j < DIVISIONS) :
    ((sphereVertexSet sin cos PI).drop (6 * (i * 40 + j))).take 6
      = [(sphereCellAt sin cos PI i j).p1, (sphereCellAt sin cos PI i j).p2,
         (sphereCellAt sin cos PI i j).p3, (sphereCellAt sin cos PI i j).p1,
         (sphereCellAt sin cos PI i j).p3, (sphereCellAt sin cos PI i j).p4] := by
  obtain ⟨rest, hrest⟩ := sphereCellEntry_initial sin cos PI i j hi hj
  have hlen := sphereCellEntry_length sin cos PI i j
  rw [← hrest]
  simp only [sphereInnerBody, List.append_assoc]
  rw [List.drop_left' hlen]
  rfl

end SphereLayout

/-- C16: the `setupSphere` mesh is a plain triangle list of `6 * 1600` vertices: for every
cell index `k = i * 40 + j` with `i, j < 40`, the six vertices at positions `6k .. 6k+5` are
the corners of that cell in the order `p1, p2, p3, p1, p3, p4`, where `p1` is the vertex at
the angles `(pitch, yaw)` of that cell, `p2` at `(pitch, yaw + delta)`, `p3` at
`(pitch + delta, yaw + delta)` and `p4` at `(pitch + delta, yaw)`. -/
theorem sphere_triangle_list {α : Type} [Field α] (sin cos : α → α) (PI : α) (i j : Nat)
    (hi : i < 40) (hj : j < 40) :
    ((sphereVertexSet sin cos PI).drop (6 * (i * 40 + j))).take 6
      = [(sphereCellAt sin cos PI i j).p1, (sphereCellAt sin cos PI i j).p2,
         (sphereCellAt sin cos PI i j).p3, (sphereCellAt sin cos PI i j).p1,
         (sphereCellAt sin cos PI i j).p3, (sphereCellAt sin cos PI i j).p4]
    ∧ (sphereCellAt sin cos PI i j).p1
        = sphericalVertex sin cos PI sphereRadius (sphereCellEntry sin cos PI i j).pitch
            (sphereCellEntry sin cos PI i j).yaw
    ∧ (sphereCellAt sin cos PI i j).p2
        = sphericalVertex sin cos PI sphereRadius (sphereCellEntry sin cos PI i j).pitch
            ((sphereCellEntry sin cos PI i j).yaw + yawDelta)
    ∧ (sphereCellAt sin cos PI i j).p3
        = sphericalVertex sin cos PI sphereRadius
            ((sphereCellEntry sin cos PI i j).pitch + pitchDelta)
            ((sphereCellEntry sin cos PI i j).yaw + yawDelta)
    ∧ (sphereCellAt sin cos PI i j).p4
        = sphericalVertex sin cos PI sphereRadius
            ((sphereCellEntry sin cos PI i j).pitch + pitchDelta)
            (sphereCellEntry sin cos PI i j).yaw
    ∧ (sphereVertexSet sin cos PI).length = 6 * (40 * 40) :=
  ⟨sphereVertexSet_cell sin cos PI i j hi hj, rfl, rfl, rfl, rfl,
    sphereVertexSet_length sin cos PI⟩

/-- Witness for C16: cell `(3, 7)`, index 127, over the rationals with the identity in the
place of `sin` and `cos`: the vertices at positions 762 .. 767. -/
theorem sphere_triangle_list_witness :
    (3 < 40 ∧ 7 < 40)
    ∧ ((sphereVertexSet (id : ℚ → ℚ) id PI).drop (6 * (3 * 40 + 7))).take 6
      = [(sphereCellAt (id : ℚ → ℚ) id PI 3 7).p1, (sphereCellAt (id : ℚ → ℚ) id PI 3 7).p2,
         (sphereCellAt (id : ℚ → ℚ) id PI 3 7).p3, (sphereCellAt (id : ℚ → ℚ) id PI 3 7).p1,
         (sphereCellAt (id : ℚ → ℚ) id PI 3 7).p3, (sphereCellAt (id : ℚ → ℚ) id PI 3 7).p4] :=
  ⟨⟨by decide, by decide⟩,
    (sphere_triangle_list (id : ℚ → ℚ) id PI 3 7 (by decide) (by decide)).1⟩

/-! ## Sky box mesh: the planes of the faces -/

/-- C14: the six faces of the `setupSkyBox` mesh are not the six sides of the cube: no
face lies in the plane `z = 1`, and two faces (the first and the second) lie in the plane
`z = -1`.  The other four planes `x = 1`, `x = -1`, `y = 1`, `y = -1` hold the third,
fourth, fifth and sixth face. -/
theorem skyBox_missing_face {α : Type} [LinearOrderedField α] :
    (∀ k : Fin 6, ¬ ∀ v ∈ skyBoxFace (α := α) k, v.position.z = 1)
    ∧ (∀ v ∈ skyBoxFace (α := α) 0, v.position.z = -1)
    ∧ (∀ v ∈ skyBoxFace (α := α) 1, v.position.z = -1)
    ∧ (∀ v ∈ skyBoxFace (α := α) 2, v.position.x = 1)
    ∧ (∀ v ∈ skyBoxFace (α := α) 3, v.position.x = -1)
    ∧ (∀ v ∈ skyBoxFace (α := α) 4, v.position.y = 1)
    ∧ (∀ v ∈ skyBoxFace (α := α) 5, v.position.y = -1) := by
  refine ⟨?_, ?_, ?_, ?_, ?_, ?_, ?_⟩
  · intro k
    fin_cases k <;> norm_num [skyBoxFace, skyBoxVertexSet]
  all_goals simp [skyBoxFace, skyBoxVertexSet]

/-! ## Shader files (`readShader`) -/

theorem readShader_none (textMode : String → String) (fs : FileSystem) (fileName : String)
    (out : List String) (h : fs fileName = none) :
    readShader textMode fs fileName out
      = ("", out ++ ["Can't read file: ", fileName, endl]) := by
  simp only [readShader, h]

/-- On a stream that can seek, `readShader` returns the first `size mod 2^32` characters
the stream delivers, followed by zero characters up to `size mod 2^32`. -/
theorem readShader_seekable (textMode : String → String) (fs : FileSystem) (fileName : String)
    (out : List String) (file : File) (h : fs fileName = some file)
    (hs : file.seekable = true) :
    readShader textMode fs fileName out
      = (⟨(textMode file.contents).data.take (file.contents.length % 4294967296)
            ++ List.replicate
                (file.contents.length % 4294967296
                  - ((textMode file.contents).data.take
                      (file.contents.length % 4294967296)).length)
                (Char.ofNat 0)⟩, out) := by
  have hsize : (((file.contents.length : Int)) % 4294967296).toNat
      = file.contents.length % 4294967296 := by
    omega
  have hrep : ∀ n : Nat, (String.mk (List.replicate n (Char.ofNat 0))).length = n :=
    fun n => List.length_replicate _ _
  simp only [readShader, h, hs, if_true, hsize, hrep, List.drop_replicate]

/-- On a stream that cannot seek, `readShader` returns `2^32 - 1` zero characters. -/
theorem readShader_unseekable (textMode : String → String) (fs : FileSystem)
    (fileName : String) (out : List String) (file : File) (h : fs fileName = some file)
    (hs : file.seekable = false) :
    readShader textMode fs fileName out
      = (⟨List.replicate 4294967295 (Char.ofNat 0)⟩, out) := by
  have hsize : ((-1 : Int) % 4294967296).toNat = 4294967295 := by decide
  simp only [readShader, h, hs, Bool.false_eq_true, if_false, hsize, List.nil_append,
    List.length_nil, List.drop_zero]

/-- A file whose size is a multiple of `2^32` is returned as the empty string. -/
theorem readShader_wrapped (textMode : String → String) (fs : FileSystem) (fileName : String)
    (out : List String) (contents : String) (h : fs fileName = some ⟨contents, true⟩)
    (hlen : contents.length % 4294967296 = 0) :
    (readShader textMode fs fileName out).1 = "" := by
  rw [readShader_seekable textMode fs fileName out ⟨contents, true⟩ h rfl]
  simp only [hlen, List.take_zero, List.length_nil, Nat.sub_self, List.replicate_zero,
    List.append_nil]

theorem hugeFile_length : hugeFile.length = 4294967296 := by
  show (List.replicate 4294967296 'x').length = 4294967296
  exact List.length_replicate _ _

theorem crlfFile_read :
    String.mk ((windowsTextMode crlfFile).data.take (crlfFile.length % 4294967296)
      ++ List.replicate (crlfFile.length % 4294967296
          - ((windowsTextMode crlfFile).data.take (crlfFile.length % 4294967296)).length)
        (Char.ofNat 0))
      = ⟨['a', Char.ofNat 10, 'b', Char.ofNat 0]⟩ := by
  decide

/-- C11: `readShader` does not always return the contents of a file it can open.  A file
of `2^32` characters is returned as the empty string, because the size is cut to 32 bits;
a file of 8 characters on a stream that cannot seek is returned as `2^32 - 1` zero
characters, because `tellg` then gives -1; a file with a Windows line end read in Windows
text mode is returned with the carriage return gone and a zero character at the end.  The
claim holds in the remaining cases: a file that cannot be opened gives the empty string and
a message with the file name, and a file of fewer than `2^32` characters on a stream that
can seek and delivers the characters as stored is returned exactly, nothing being written. -/
theorem readShader_size_defects (textMode : String → String) (out : List String) :
    (hugeFile.length = 4294967296
      ∧ (readShader textMode (fun _ => some ⟨hugeFile, true⟩) "VertexShader.glsl" out).1 = "")
    ∧ (("12345678" : String).length = 8
      ∧ (readShader textMode (fun _ => some ⟨"12345678", false⟩) "VertexShader.glsl" out).1
          = ⟨List.replicate 4294967295 (Char.ofNat 0)⟩)
    ∧ (readShader windowsTextMode (fun _ => some ⟨crlfFile, true⟩) "VertexShader.glsl" out).1
        = ⟨['a', Char.ofNat 10, 'b', Char.ofNat 0]⟩
    ∧ (∀ (fs : FileSystem) (fileName : String), fs fileName = none →
        (readShader textMode fs fileName out).1 = ""
        ∧ (readShader textMode fs fileName out).2
            = out ++ ["Can't read file: ", fileName, endl]
        ∧ fileName ∈ (readShader textMode fs fileName out).2)
    ∧ (∀ (fs : FileSystem) (fileName : String) (file : File), fs fileName = some file →
        file.seekable = true → file.contents.length < 4294967296 →
        textMode file.contents = file.contents →
        (readShader textMode fs fileName out).1 = file.contents
        ∧ (readShader textMode fs fileName out).1.length = file.contents.length
        ∧ (readShader textMode fs fileName out).2 = out) := by
  refine ⟨⟨hugeFile_length, ?_⟩, ⟨rfl, ?_⟩, ?_, ?_, ?_⟩
  · exact readShader_wrapped textMode (fun _ => some ⟨hugeFile, true⟩) "VertexShader.glsl" out
      hugeFile rfl (by rw [hugeFile_length])
  · rw [readShader_unseekable textMode (fun _ => some ⟨"12345678", false⟩)
      "VertexShader.glsl" out ⟨"12345678", false⟩ rfl rfl]
  · rw [readShader_seekable windowsTextMode (fun _ => some ⟨crlfFile, true⟩)
      "VertexShader.glsl" out ⟨crlfFile, true⟩ rfl rfl]
    exact crlfFile_read
  · intro fs fileName h
    rw [readShader_none textMode fs fileName out h]
    exact ⟨rfl, rfl, by simp⟩
  · intro fs fileName file h hs hlt htext
    rw [readShader_seekable textMode fs fileName out file h hs, htext,
      Nat.mod_eq_of_lt hlt]
    have hd : file.contents.data.length = file.contents.length := rfl
    have hc : (String.mk (List.take file.contents.length file.contents.data
        ++ List.replicate (file.contents.length
            - (List.take file.contents.length file.contents.data).length) (Char.ofNat 0)))
        = file.contents := by
      rw [List.take_of_length_le (Nat.le_of_eq hd), hd, Nat.sub_self, List.replicate_zero,
        List.append_nil]
    exact ⟨hc, by rw [hc], rfl⟩

/-! ## Clean-up at the end of `main` -/

theorem glDeleteProgram_calls {α : Type} (program : GLuint) (gl : GLState α) :
    (glDeleteProgram program gl).calls = gl.calls ++ [GLCall.glDeleteProgram program] := by
  by_cases h : program = gl.currentProgram
  · simp only [glDeleteProgram, if_pos h]
  · simp only [glDeleteProgram, if_neg h]

/-- C12: the clean-up at the end of `main` makes exactly three calls, `glDeleteShader` on
`vertex_shader` and `fragment_shader` and `glDeleteProgram` on `program`; it makes no call
for `vertex_shaderSB`, `fragment_shaderSB` and `programSB`.  On the run `init`, one frame,
clean-up from a fresh context, `init` acquires the handles 1 .. 6, the only release calls of
the whole run are those for 1, 2 and 3, and the shaders 4 and 5 and the program 6 are still
objects of the context when `glfwTerminate` is reached (also when no frame is drawn, in
which case 1, 2 and 3 are gone). -/
theorem mainCleanup_skips_skybox_handles {α : Type} (g : Globals α) (gl : GLState α) :
    (mainCleanup g gl).calls
      = gl.calls ++ [GLCall.glDeleteShader g.vertex_shader,
                     GLCall.glDeleteShader g.fragment_shader,
                     GLCall.glDeleteProgram g.program]
    ∧ (sampleInit.1.vertex_shader = 1 ∧ sampleInit.1.fragment_shader = 2
        ∧ sampleInit.1.program = 3 ∧ sampleInit.1.vertex_shaderSB = 4
        ∧ sampleInit.1.fragment_shaderSB = 5 ∧ sampleInit.1.programSB = 6)
    ∧ (sampleInit.2.1.isShader 1 = true ∧ sampleInit.2.1.isShader 2 = true
        ∧ sampleInit.2.1.isProgram 3 = true ∧ sampleInit.2.1.isShader 4 = true
        ∧ sampleInit.2.1.isShader 5 = true ∧ sampleInit.2.1.isProgram 6 = true)
    ∧ releaseCalls (mainCleanup sampleInit.1 (renderScene sampleInit.1 sampleInit.2.1)).calls
        = [GLCall.glDeleteShader 1, GLCall.glDeleteShader 2, GLCall.glDeleteProgram 3]
    ∧ ((mainCleanup sampleInit.1 (renderScene sampleInit.1 sampleInit.2.1)).isShader 4 = true
        ∧ (mainCleanup sampleInit.1 (renderScene sampleInit.1 sampleInit.2.1)).isShader 5 = true
        ∧ (mainCleanup sampleInit.1 (renderScene sampleInit.1 sampleInit.2.1)).isProgram 6
            = true)
    ∧ ((mainCleanup sampleInit.1 sampleInit.2.1).isShader 4 = true
        ∧ (mainCleanup sampleInit.1 sampleInit.2.1).isShader 5 = true
        ∧ (mainCleanup sampleInit.1 sampleInit.2.1).isProgram 6 = true
        ∧ (mainCleanup sampleInit.1 sampleInit.2.1).isShader 1 = false
        ∧ (mainCleanup sampleInit.1 sampleInit.2.1).isShader 2 = false
        ∧ (mainCleanup sampleInit.1 sampleInit.2.1).isProgram 3 = false) := by
  refine ⟨?_, by decide, by decide, by decide, by decide, by decide⟩
  simp only [mainCleanup, glDeleteProgram_calls, glDeleteShader, List.append_assoc,
    List.cons_append, List.nil_append]

end ReflectionAndRefraction
